import Mathlib

/-!
Shallow embedding of the tab-addressable session layer of a Selenium-based
browser automation server (src/main.py, class FirefoxAutoBrowser).

The embedding models:
* Python dynamic values that flow into the `target` parameters (`Py`),
  including the fact that in Python `bool` is a subclass of `int`, so
  `isinstance(target, int)` is true for booleans;
* the JSON result envelope every operation returns (`Envelope`, over `PyVal`,
  a model of JSON-serializable Python values);
* the remote WebDriver's observable state (`Driver`: window handles, current
  window, page source of the active context, the set of locatable elements);
* engine faults: every WebDriver call an operation makes can instead raise an
  exception; a call site's behaviour is injected as an `Option EngFault`
  argument (none = the call behaves). `EngFault` covers the exception classes
  such calls raise (WebDriverException, TimeoutException, and plain
  Exception); NoSuchElementException arises only from element lookup, which is
  modelled through `Driver.elems` membership;
* the trace of engine calls an operation performs (`ECall` list), so that
  claims of the form "without any engine call" and "no explicit switch" are
  directly statable.

Each method of FirefoxAutoBrowser is translated to a Lean function of the
same name taking the driver state (`Option Driver`; `none` models
`self.driver = None`) plus the per-call-site fault schedule, and returning
the new driver state, the result envelope and the engine-call trace.
-/

/-- Model of a JSON-serializable Python value, as produced by `json.dumps`
(`PyVal.none` renders as JSON null, `PyVal.float n` models the float n.0). -/
inductive PyVal where
  | none
  | bool (b : Bool)
  | int (i : Int)
  | str (s : String)
  | float (n : Int)
  | list (xs : List PyVal)
  | dict (kvs : List (String × PyVal))

/-- True exactly on the JSON null value. -/
def PyVal.isNone : PyVal → Bool
  | .none => true
  | _ => false

/-- Model of a dynamic Python value supplied by the caller for a `target` /
`url` parameter: None, a bool, an int, a str, or a float (`Py.floatV n`
models the float n.0, a value that is neither an int nor a str). -/
inductive Py where
  | none
  | bool (b : Bool)
  | int (i : Int)
  | str (s : String)
  | floatV (n : Int)
deriving DecidableEq, Repr

/-- Python `isinstance(v, int)`: true for ints and for bools, because in
Python `bool` is a subclass of `int`. -/
def pyIsInt : Py → Bool
  | .int _ => true
  | .bool _ => true
  | _ => false

/-- The integer value of a Python int-like value (True is 1, False is 0). -/
def pyToInt : Py → Int
  | .int i => i
  | .bool b => if b then 1 else 0
  | _ => 0

/-- Python `isinstance(v, str)`. -/
def pyIsStr : Py → Bool
  | .str _ => true
  | _ => false

/-- The string value of a Python str value (anything else gives ""). -/
def pyAsStr : Py → String
  | .str s => s
  | _ => ""

/-- Python truthiness test `not v`: None, False, 0, "" and 0.0 are falsy. -/
def pyFalsy : Py → Bool
  | .none => true
  | .bool b => !b
  | .int i => i == 0
  | .str s => s == ""
  | .floatV n => n == 0

/-- Python `str(v)` as it appears inside an f-string. -/
def pyStr : Py → String
  | .none => "None"
  | .bool b => if b then "True" else "False"
  | .int i => toString i
  | .str s => s
  | .floatV n => toString n ++ ".0"

/-- The JSON value `json.dumps` produces for a caller-supplied value. -/
def pyToVal : Py → PyVal
  | .none => PyVal.none
  | .bool b => PyVal.bool b
  | .int i => PyVal.int i
  | .str s => PyVal.str s
  | .floatV n => PyVal.float n

/-- The eight element-addressing schemes of selenium `By` used by
`click_element` (and `By.XPATH` used by `click_element_by_xpath`). -/
inductive ByQ where
  | byId
  | byXpath
  | byName
  | byClassName
  | byCssSelector
  | byTagName
  | byLinkText
  | byPartialLink
deriving DecidableEq, Repr

/-- Observable state of the remote WebDriver session: the ordered window
handle list, the current window handle (`none` when the engine cannot report
one), the page source of the active context, and the set of (scheme,
expression) pairs for which `find_element` locates an element. -/
structure Driver where
  handles : List String
  current : Option String
  pageSource : String
  elems : List (ByQ × String)
deriving DecidableEq, Repr

/-- An engine fault injected at one WebDriver call site: the call raises a
WebDriverException, a TimeoutException (a subclass of WebDriverException), or
a plain Exception, with the given message. -/
inductive EngFault where
  | webDriver (m : String)
  | timeout (m : String)
  | generic (m : String)
deriving DecidableEq, Repr

/-- Message of an injected engine fault. -/
def EngFault.msg : EngFault → String
  | .webDriver m => m
  | .timeout m => m
  | .generic m => m

/-- An exception as classified by the operations' except-clauses.
`noSuchElement` and `timeoutExc` are subclasses of WebDriverException in
selenium; `genericExc` models a plain Exception. -/
inductive Exc where
  | noSuchElement (m : String)
  | timeoutExc (m : String)
  | webDriverExc (m : String)
  | genericExc (m : String)
deriving DecidableEq, Repr

/-- The message `str(e)` of an exception. -/
def Exc.msg : Exc → String
  | .noSuchElement m => m
  | .timeoutExc m => m
  | .webDriverExc m => m
  | .genericExc m => m

/-- Whether an `except WebDriverException` clause catches this exception
(NoSuchElementException and TimeoutException are subclasses). -/
def Exc.isWebDriver : Exc → Bool
  | .genericExc _ => false
  | _ => true

/-- The exception an injected engine fault raises. -/
def EngFault.toExc : EngFault → Exc
  | .webDriver m => .webDriverExc m
  | .timeout m => .timeoutExc m
  | .generic m => .genericExc m

/-- One WebDriver call, as recorded in an operation's engine-call trace. -/
inductive ECall where
  | windowHandles
  | currentWindow
  | switchTo (h : String)
  | execScript (script : String)
  | navigate (url : String)
  | pageSource
  | findElement (b : ByQ) (loc : String)
  | clickElem
  | closeWindow
  | quitSession
deriving DecidableEq, Repr

/-- The result envelope every operation serializes with `json.dumps`:
`{"code": .., "status": .., "message": .., "detail": .., "data": ..}`. -/
structure Envelope where
  code : Nat
  status : String
  message : String
  detail : PyVal
  data : PyVal

/-- A success envelope (each success return site of the source writes
`"code": 200, "status": "success"` literally). -/
def ok200 (message : String) (detail data : PyVal) : Envelope :=
  { code := 200, status := "success", message := message, detail := detail, data := data }

/-- A failure envelope with code 500 (every failure return site of the source
writes `"status": "failed", "data": None` literally). -/
def fail500 (message : String) (detail : PyVal) : Envelope :=
  { code := 500, status := "failed", message := message, detail := detail, data := PyVal.none }

/-- A failure envelope with code 404 (the element-not-found handlers of the
click operations). -/
def fail404 (message : String) (detail : PyVal) : Envelope :=
  { code := 404, status := "failed", message := message, detail := detail, data := PyVal.none }

/-- Result of one operation: the driver state after it (`none` models
`self.driver = None`), the returned envelope, and the engine calls made. -/
structure OpResult where
  driver : Option Driver
  env : Envelope
  calls : List ECall

/-- Result of the switch logic run on a live driver (the driver object is
never discarded by a switch, so the state stays a `Driver`). -/
structure CoreResult where
  driver : Driver
  env : Envelope
  calls : List ECall

/-- Python substring test `needle in hay`. -/
def containsSub (needle hay : String) : Bool :=
  (List.range (hay.length + 1)).any fun k => needle.toList.isPrefixOf (hay.toList.drop k)

/-- Truncated display form of a handle: `handle[:20] + "..."`. -/
def abbrHandle (h : String) : String := h.take 20 ++ "..."

/-- Message of the engine's NoSuchWindowException when the current window
handle cannot be reported. -/
def noWindowMsg : String := "no such window"

/-- Message selenium's `find_element` reports when zero elements match. -/
def noSuchElemMsg (loc : String) : String := "Unable to locate element: " ++ loc

/-- Active/inactive annotation of one handle in `get_all_tabs`
(`"[Currently Active]" if (active_handle and handle == active_handle)`;
note the Python truthiness test on `active_handle`). -/
def tabStatus (active : Option String) (h : String) : String :=
  match active with
  | some a => if a ≠ "" ∧ h = a then "[Currently Active]" else "[Inactive]"
  | none => "[Inactive]"

/-- The script `window.open('');` run by `create_new_tab`. -/
def openTabScript : String := "window.open(\x27\x27);"

/-- Translation of `FirefoxAutoBrowser.create_new_tab` (src/main.py lines
83-111): guard on the driver, run `window.open('');`, return a success
envelope; any exception becomes a 500 envelope with null detail. -/
def create_new_tab (d : Option Driver) (newHandle : String) (exF : Option EngFault) : OpResult :=
  match d with
  | none =>
    ⟨none, fail500 "Failed to create new tab: Browser driver not initialized" PyVal.none, []⟩
  | some dr =>
    match exF with
    | some e =>
      ⟨some dr, fail500 ("Failed to create new tab: " ++ e.msg) PyVal.none,
       [ECall.execScript openTabScript]⟩
    | none =>
      ⟨some { dr with handles := dr.handles ++ [newHandle] },
       ok200 "New tab created successfully" PyVal.none PyVal.none,
       [ECall.execScript openTabScript]⟩

/-- Translation of `FirefoxAutoBrowser.get_all_tabs` (src/main.py lines
113-162). The inner `try` around `current_window_handle` turns an
undeterminable active handle into `None`, which `Driver.current = none`
models directly. -/
def get_all_tabs (d : Option Driver) (hF : Option EngFault) : OpResult :=
  match d with
  | none =>
    ⟨none, fail500 "Failed to get all tabs: Browser driver not initialized" PyVal.none, []⟩
  | some dr =>
    match hF with
    | some e =>
      ⟨some dr, fail500 ("Failed to get all tabs: " ++ e.msg) PyVal.none,
       [ECall.windowHandles]⟩
    | none =>
      let handles := dr.handles
      let tabsInfo : List PyVal := handles.enum.map fun p =>
        PyVal.dict [("index", PyVal.int p.1), ("handle", PyVal.str p.2),
          ("handle_abbr", PyVal.str (abbrHandle p.2)),
          ("status", PyVal.str (tabStatus dr.current p.2))]
      ⟨some dr,
       ok200 ("Successfully retrieved " ++ toString handles.length ++ " tabs in total")
         (PyVal.dict [("total_tabs", PyVal.int handles.length),
           ("tabs_info", PyVal.list tabsInfo)])
         (PyVal.list (handles.map PyVal.str)),
       [ECall.windowHandles, ECall.currentWindow]⟩

/-- The single except-clause of `get_active_tab`. -/
def activeFail (e : Exc) : Envelope :=
  fail500 ("Failed to get active tab: " ++ e.msg) PyVal.none

/-- Translation of `FirefoxAutoBrowser.get_active_tab` (src/main.py lines
164-201): read the current handle, read the handle list, compute
`all_handles.index(current_window)` (a ValueError when absent). -/
def get_active_tab (d : Option Driver) (chF hF : Option EngFault) : OpResult :=
  match d with
  | none => ⟨none, activeFail (Exc.genericExc "Browser driver not initialized"), []⟩
  | some dr =>
    match chF with
    | some e => ⟨some dr, activeFail e.toExc, [ECall.currentWindow]⟩
    | none =>
      match dr.current with
      | none => ⟨some dr, activeFail (Exc.webDriverExc noWindowMsg), [ECall.currentWindow]⟩
      | some c =>
        match hF with
        | some e => ⟨some dr, activeFail e.toExc, [ECall.currentWindow, ECall.windowHandles]⟩
        | none =>
          if c ∈ dr.handles then
            ⟨some dr,
             ok200 "Successfully retrieved current active tab information"
               (PyVal.dict [("total_tabs", PyVal.int dr.handles.length),
                 ("active_tab_index", PyVal.int (dr.handles.indexOf c)),
                 ("active_tab_handle", PyVal.str c)])
               (PyVal.str c),
             [ECall.currentWindow, ECall.windowHandles]⟩
          else
            ⟨some dr, activeFail (Exc.genericExc ("\x27" ++ c ++ "\x27 is not in list")),
             [ECall.currentWindow, ECall.windowHandles]⟩

/-- The type-mismatch message raised when a target is neither int nor str. -/
def typeMismatchMsg : String := "Invalid parameter type, supports int (index) or str (handle)"

/-- The out-of-range message of `switch_to_specific_tab`, which cites the
valid index range `(index 0~N-1)` (Python int arithmetic, so N = 0 prints
`0~-1`). -/
def idxRangeMsg (target : Py) (n : Nat) : String :=
  "Tab index " ++ pyStr target ++ " is invalid, only " ++ toString n
    ++ " tabs exist currently (index 0~" ++ toString ((n : Int) - 1) ++ ")"

/-- The out-of-range message used by `get_specific_tab_page_content` and
`close_specific_tab`, which does not cite the range. -/
def idxNoRangeMsg (target : Py) (n : Nat) : String :=
  "Tab index " ++ pyStr target ++ " is invalid, only " ++ toString n ++ " tabs exist currently"

/-- The unknown-handle message shared by the three resolution sites. -/
def badHandleMsg (target : Py) : String :=
  "Tab handle " ++ pyAsStr target ++ " is invalid, not in the current tab list"

/-- Target resolution of `switch_to_specific_tab` (src/main.py lines
216-228): `isinstance(target, int)` first (so Python booleans resolve as
indices), then `isinstance(target, str)`, else a type-mismatch error. -/
def resolveTargetRange (all : List String) (target : Py) : Except Exc String :=
  if pyIsInt target then
    if 0 ≤ pyToInt target ∧ pyToInt target < (all.length : Int) then
      .ok (all.getD (pyToInt target).toNat "")
    else .error (.genericExc (idxRangeMsg target all.length))
  else if pyIsStr target then
    if pyAsStr target ∈ all then .ok (pyAsStr target)
    else .error (.genericExc (badHandleMsg target))
  else .error (.genericExc typeMismatchMsg)

/-- Target resolution as duplicated in `get_specific_tab_page_content`
(lines 337-360) and `close_specific_tab` (lines 738-751): identical to
`resolveTargetRange` except that the out-of-range message omits the range. -/
def resolveTargetNoRange (all : List String) (target : Py) : Except Exc String :=
  if pyIsInt target then
    if 0 ≤ pyToInt target ∧ pyToInt target < (all.length : Int) then
      .ok (all.getD (pyToInt target).toNat "")
    else .error (.genericExc (idxNoRangeMsg target all.length))
  else if pyIsStr target then
    if pyAsStr target ∈ all then .ok (pyAsStr target)
    else .error (.genericExc (badHandleMsg target))
  else .error (.genericExc typeMismatchMsg)

/-- The single except-clause of `switch_to_specific_tab`: code 500, the
exception message, and `detail = {"input_target": target}`. -/
def switchFail (target : Py) (e : Exc) : Envelope :=
  fail500 ("Failed to switch to specific tab: " ++ e.msg)
    (PyVal.dict [("input_target", pyToVal target)])

/-- Body of `switch_to_specific_tab` on a live driver (src/main.py lines
209-255): fetch the handle list, resolve the target, switch the engine's
active context to the resolved handle. -/
def switch_core (dr : Driver) (target : Py) (hF swF : Option EngFault) : CoreResult :=
  match hF with
  | some e => ⟨dr, switchFail target e.toExc, [ECall.windowHandles]⟩
  | none =>
    match resolveTargetRange dr.handles target with
    | .error e => ⟨dr, switchFail target e, [ECall.windowHandles]⟩
    | .ok h =>
      match swF with
      | some e => ⟨dr, switchFail target e.toExc, [ECall.windowHandles, ECall.switchTo h]⟩
      | none =>
        ⟨{ dr with current := some h },
         ok200 "Successfully switched to target tab"
           (PyVal.dict [("target_param", pyToVal target), ("target_handle", PyVal.str h),
             ("target_handle_abbr", PyVal.str (abbrHandle h))])
           PyVal.none,
         [ECall.windowHandles, ECall.switchTo h]⟩

/-- Translation of `FirefoxAutoBrowser.switch_to_specific_tab` (src/main.py
lines 203-255). -/
def switch_to_specific_tab (d : Option Driver) (target : Py) (hF swF : Option EngFault) :
    OpResult :=
  match d with
  | none => ⟨none, switchFail target (Exc.genericExc "Browser driver not initialized"), []⟩
  | some dr =>
    let r := switch_core dr target hF swF
    ⟨some r.driver, r.env, r.calls⟩

/-- The two except-clauses of `open_url_in_specific_tab`:
`(TimeoutException, WebDriverException)` first, then `Exception`. -/
def openUrlFail (url target : Py) (e : Exc) : Envelope :=
  if e.isWebDriver then
    fail500 ("Web page loading timed out or failed to open: " ++ e.msg)
      (PyVal.dict [("target_tab", pyToVal target), ("input_url", pyToVal url)])
  else
    fail500 ("Failed to open web page in specific tab: " ++ e.msg)
      (PyVal.dict [("target_tab", pyToVal target), ("input_url", pyToVal url)])

/-- Translation of `FirefoxAutoBrowser.open_url_in_specific_tab` (src/main.py
lines 257-312): validate the url, call `switch_to_specific_tab(target)`
(re-raising its failure message as an Exception), then navigate. -/
def open_url_in_specific_tab (d : Option Driver) (url target : Py)
    (hF swF navF : Option EngFault) : OpResult :=
  match d with
  | none => ⟨none, openUrlFail url target (Exc.genericExc "Browser driver not initialized"), []⟩
  | some dr =>
    if pyFalsy url || !(pyIsStr url) then
      ⟨some dr, openUrlFail url target (Exc.genericExc "Invalid web page address"), []⟩
    else
      let s := switch_core dr target hF swF
      if s.env.code = 200 then
        match navF with
        | some e =>
          ⟨some s.driver, openUrlFail url target e.toExc,
           s.calls ++ [ECall.navigate (pyAsStr url)]⟩
        | none =>
          ⟨some s.driver,
           ok200 ("Successfully opened web page in target tab: " ++ pyAsStr url)
             (PyVal.dict [("target_tab", pyToVal target), ("opened_url", pyToVal url)])
             PyVal.none,
           s.calls ++ [ECall.navigate (pyAsStr url)]⟩
      else
        ⟨some s.driver, openUrlFail url target (Exc.genericExc s.env.message), s.calls⟩

/-- The two except-clauses of `get_specific_tab_page_content`:
`WebDriverException` first, then `Exception`; both carry the input target. -/
def contentFail (target : Py) (e : Exc) : Envelope :=
  if e.isWebDriver then
    fail500 ("Failed to get tab page content (WebDriver exception): " ++ e.msg)
      (PyVal.dict [("input_target", pyToVal target)])
  else
    fail500 ("Failed to get tab page content: " ++ e.msg)
      (PyVal.dict [("input_target", pyToVal target)])

/-- Translation of `FirefoxAutoBrowser.get_specific_tab_page_content`
(src/main.py lines 314-400): with no target, read the page source of the
current active context without switching; otherwise resolve and switch
first. `detail.content_length` is set to `len(page_content)`. -/
def get_specific_tab_page_content (d : Option Driver) (target : Py)
    (chF hF swF psF : Option EngFault) : OpResult :=
  match d with
  | none => ⟨none, contentFail target (Exc.genericExc "Browser driver not initialized"), []⟩
  | some dr =>
    match target with
    | Py.none =>
      match chF with
      | some e => ⟨some dr, contentFail target e.toExc, [ECall.currentWindow]⟩
      | none =>
        match dr.current with
        | none => ⟨some dr, contentFail target (Exc.webDriverExc noWindowMsg),
            [ECall.currentWindow]⟩
        | some c =>
          match psF with
          | some e => ⟨some dr, contentFail target e.toExc,
              [ECall.currentWindow, ECall.pageSource]⟩
          | none =>
            ⟨some dr,
             ok200 ("Successfully retrieved target tab page content, content length: "
                 ++ toString dr.pageSource.length ++ " characters")
               (PyVal.dict [("target_type", PyVal.str "current_active"),
                 ("target_handle", PyVal.str c),
                 ("target_handle_abbr", PyVal.str (abbrHandle c)),
                 ("content_length", PyVal.int dr.pageSource.length)])
               (PyVal.str dr.pageSource),
             [ECall.currentWindow, ECall.pageSource]⟩
    | _ =>
      match hF with
      | some e => ⟨some dr, contentFail target e.toExc, [ECall.windowHandles]⟩
      | none =>
        match resolveTargetNoRange dr.handles target with
        | .error e => ⟨some dr, contentFail target e, [ECall.windowHandles]⟩
        | .ok h =>
          match swF with
          | some e => ⟨some dr, contentFail target e.toExc,
              [ECall.windowHandles, ECall.switchTo h]⟩
          | none =>
            let dr2 := { dr with current := some h }
            match psF with
            | some e => ⟨some dr2, contentFail target e.toExc,
                [ECall.windowHandles, ECall.switchTo h, ECall.pageSource]⟩
            | none =>
              ⟨some dr2,
               ok200 ("Successfully retrieved target tab page content, content length: "
                   ++ toString dr2.pageSource.length ++ " characters")
                 (PyVal.dict [("target_type",
                     PyVal.str (if pyIsInt target then "index" else "handle")),
                   ("input_target", pyToVal target),
                   ("target_handle", PyVal.str h),
                   ("target_handle_abbr", PyVal.str (abbrHandle h)),
                   ("content_length", PyVal.int dr2.pageSource.length)])
                 (PyVal.str dr2.pageSource),
               [ECall.windowHandles, ECall.switchTo h, ECall.pageSource]⟩

/-- The three except-clauses of `click_element_by_xpath`:
NoSuchElementException becomes a 404 envelope, other WebDriverExceptions and
plain Exceptions become 500 envelopes. -/
def clickXpathFail (xpath t : Py) (e : Exc) : Envelope :=
  match e with
  | .noSuchElement m =>
    fail404 ("Element not found by XPath: " ++ m)
      (PyVal.dict [("xpath_expression", pyToVal xpath), ("target_tab", pyToVal t),
        ("error_type", PyVal.str "NoSuchElementException")])
  | .timeoutExc m =>
    fail500 ("Failed to click element (WebDriver exception): " ++ m)
      (PyVal.dict [("xpath_expression", pyToVal xpath), ("target_tab", pyToVal t),
        ("error_type", PyVal.str "WebDriverException")])
  | .webDriverExc m =>
    fail500 ("Failed to click element (WebDriver exception): " ++ m)
      (PyVal.dict [("xpath_expression", pyToVal xpath), ("target_tab", pyToVal t),
        ("error_type", PyVal.str "WebDriverException")])
  | .genericExc m =>
    fail500 ("Failed to click element by XPath: " ++ m)
      (PyVal.dict [("xpath_expression", pyToVal xpath), ("target_tab", pyToVal t),
        ("error_type", PyVal.str "GeneralException")])

/-- Locate-and-click stage of `click_element_by_xpath`, after the optional
tab switch: `find_element(By.XPATH, xpath)` raises NoSuchElementException
when zero elements match (`(ByQ.byXpath, x) ∉ dr.elems`), then click. -/
def click_xpath_act (dr : Driver) (xpath t : Py) (switched : Bool) (tr : List ECall)
    (findF clickF : Option EngFault) : OpResult :=
  let x := pyAsStr xpath
  let tr1 := tr ++ [ECall.findElement ByQ.byXpath x]
  match findF with
  | some e => ⟨some dr, clickXpathFail xpath t e.toExc, tr1⟩
  | none =>
    if (ByQ.byXpath, x) ∈ dr.elems then
      match clickF with
      | some e => ⟨some dr, clickXpathFail xpath t e.toExc, tr1 ++ [ECall.clickElem]⟩
      | none =>
        ⟨some dr,
         ok200 "Element located by XPath and clicked successfully"
           (PyVal.dict ([("xpath_expression", PyVal.str x), ("target_tab", pyToVal t),
               ("operation_status", PyVal.str "completed_successfully")]
             ++ (if switched then
                  [("switch_status", PyVal.str "Successfully switched to target tab")]
                 else [])))
           PyVal.none,
         tr1 ++ [ECall.clickElem]⟩
    else
      ⟨some dr, clickXpathFail xpath t (Exc.noSuchElement (noSuchElemMsg x)), tr1⟩

/-- Translation of `FirefoxAutoBrowser.click_element_by_xpath` (src/main.py
lines 520-603): validate the xpath, optionally switch tab (re-raising a
failed switch as an Exception), locate the element and click it. -/
def click_element_by_xpath (d : Option Driver) (xpath t : Py)
    (hF swF findF clickF : Option EngFault) : OpResult :=
  match d with
  | none => ⟨none, clickXpathFail xpath t (Exc.genericExc "Browser driver not initialized"), []⟩
  | some dr =>
    if pyFalsy xpath || !(pyIsStr xpath) then
      ⟨some dr,
       clickXpathFail xpath t
         (Exc.genericExc "Invalid XPath expression: it must be a non-empty string"), []⟩
    else
      match t with
      | Py.none => click_xpath_act dr xpath t false [] findF clickF
      | _ =>
        let s := switch_core dr t hF swF
        if s.env.code = 200 then
          click_xpath_act s.driver xpath t true s.calls findF clickF
        else
          ⟨some s.driver,
           clickXpathFail xpath t
             (Exc.genericExc ("Failed to switch to target tab: " ++ s.env.message)),
           s.calls⟩

/-- The locator types supported by `click_element`, in the dict's insertion
order, and the `", ".join(...)` of their names. -/
def supportedTypesMsg : String :=
  "id, xpath, name, class_name, css_selector, tag_name, link_text, partial_link_text"

/-- The `By` scheme of a supported locator-type name (`none` when the name is
not a key of `supported_locators`). -/
def byOf : String → Option ByQ
  | "id" => some ByQ.byId
  | "xpath" => some ByQ.byXpath
  | "name" => some ByQ.byName
  | "class_name" => some ByQ.byClassName
  | "css_selector" => some ByQ.byCssSelector
  | "tag_name" => some ByQ.byTagName
  | "link_text" => some ByQ.byLinkText
  | "partial_link_text" => some ByQ.byPartialLink
  | _ => none

/-- The three except-clauses of `click_element`. -/
def clickElemFail (loc : Py) (lt : String) (t : Py) (e : Exc) : Envelope :=
  match e with
  | .noSuchElement m =>
    fail404 ("Element not found by " ++ lt ++ ": " ++ m)
      (PyVal.dict [("locator_type", PyVal.str lt), ("locator_expression", pyToVal loc),
        ("target_tab", pyToVal t), ("error_type", PyVal.str "NoSuchElementException")])
  | .timeoutExc m =>
    fail500 ("Failed to click element (WebDriver exception): " ++ m)
      (PyVal.dict [("locator_type", PyVal.str lt), ("locator_expression", pyToVal loc),
        ("target_tab", pyToVal t), ("error_type", PyVal.str "WebDriverException")])
  | .webDriverExc m =>
    fail500 ("Failed to click element (WebDriver exception): " ++ m)
      (PyVal.dict [("locator_type", PyVal.str lt), ("locator_expression", pyToVal loc),
        ("target_tab", pyToVal t), ("error_type", PyVal.str "WebDriverException")])
  | .genericExc m =>
    fail500 ("Failed to click element by " ++ lt ++ ": " ++ m)
      (PyVal.dict [("locator_type", PyVal.str lt), ("locator_expression", pyToVal loc),
        ("target_tab", pyToVal t), ("error_type", PyVal.str "GeneralException")])

/-- The `scrollIntoView` script `click_element` runs before clicking. -/
def scrollIntoViewScript : String :=
  "arguments[0].scrollIntoView(\x7bbehavior: \x27smooth\x27, block: \x27center\x27\x7d);"

/-- Locate, scroll-into-view and click stage of `click_element`, after the
optional tab switch. -/
def click_elem_act (dr : Driver) (loc : Py) (lt : String) (b : ByQ) (t : Py)
    (switched : Bool) (tr : List ECall) (findF scrollF clickF : Option EngFault) : OpResult :=
  let s := pyAsStr loc
  let tr1 := tr ++ [ECall.findElement b s]
  match findF with
  | some e => ⟨some dr, clickElemFail loc lt t e.toExc, tr1⟩
  | none =>
    if (b, s) ∈ dr.elems then
      match scrollF with
      | some e => ⟨some dr, clickElemFail loc lt t e.toExc,
          tr1 ++ [ECall.execScript scrollIntoViewScript]⟩
      | none =>
        match clickF with
        | some e => ⟨some dr, clickElemFail loc lt t e.toExc,
            tr1 ++ [ECall.execScript scrollIntoViewScript, ECall.clickElem]⟩
        | none =>
          ⟨some dr,
           ok200 ("Element located by " ++ lt ++ " and clicked successfully")
             (PyVal.dict ([("locator_type", PyVal.str lt), ("locator_expression", PyVal.str s),
                 ("target_tab", pyToVal t),
                 ("operation_status", PyVal.str "completed_successfully")]
               ++ (if switched then
                    [("switch_status", PyVal.str "Successfully switched to target tab")]
                   else [])))
             PyVal.none,
           tr1 ++ [ECall.execScript scrollIntoViewScript, ECall.clickElem]⟩
    else
      ⟨some dr, clickElemFail loc lt t (Exc.noSuchElement (noSuchElemMsg s)), tr1⟩

/-- Translation of `FirefoxAutoBrowser.click_element` (src/main.py lines
605-712): check the locator type against `supported_locators`, validate the
locator, optionally switch tab, locate, scroll into view, click. -/
def click_element (d : Option Driver) (loc : Py) (lt : String) (t : Py)
    (hF swF findF scrollF clickF : Option EngFault) : OpResult :=
  match d with
  | none => ⟨none, clickElemFail loc lt t (Exc.genericExc "Browser driver not initialized"), []⟩
  | some dr =>
    match byOf lt with
    | none =>
      ⟨some dr,
       clickElemFail loc lt t
         (Exc.genericExc ("Unsupported locator type: " ++ lt ++ ". Supported types: "
           ++ supportedTypesMsg)), []⟩
    | some b =>
      if pyFalsy loc || !(pyIsStr loc) then
        ⟨some dr,
         clickElemFail loc lt t
           (Exc.genericExc "Invalid locator expression: it must be a non-empty string"), []⟩
      else
        match t with
        | Py.none => click_elem_act dr loc lt b t false [] findF scrollF clickF
        | _ =>
          let s := switch_core dr t hF swF
          if s.env.code = 200 then
            click_elem_act s.driver loc lt b t true s.calls findF scrollF clickF
          else
            ⟨some s.driver,
             clickElemFail loc lt t
               (Exc.genericExc ("Failed to switch to target tab: " ++ s.env.message)),
             s.calls⟩

/-- The two except-clauses of `scroll_mouse_wheel_down`. -/
def scrollDownFail (dist : Int) (t : Py) (e : Exc) : Envelope :=
  if e.isWebDriver then
    fail500 ("Failed to scroll mouse wheel down (WebDriver exception): " ++ e.msg)
      (PyVal.dict [("scroll_distance", PyVal.int dist), ("target_tab", pyToVal t)])
  else
    fail500 ("Failed to scroll mouse wheel down: " ++ e.msg)
      (PyVal.dict [("scroll_distance", PyVal.int dist), ("target_tab", pyToVal t)])

/-- Translation of `FirefoxAutoBrowser.scroll_mouse_wheel_down` (src/main.py
lines 402-459): optionally switch tab (re-raising its failure message as an
Exception), then run `window.scrollBy(0, distance);`. -/
def scroll_mouse_wheel_down (d : Option Driver) (dist : Int) (t : Py)
    (hF swF exF : Option EngFault) : OpResult :=
  match d with
  | none => ⟨none, scrollDownFail dist t (Exc.genericExc "Browser driver not initialized"), []⟩
  | some dr =>
    match t with
    | Py.none =>
      let script := "window.scrollBy(0, " ++ toString dist ++ ");"
      match exF with
      | some e => ⟨some dr, scrollDownFail dist t e.toExc, [ECall.execScript script]⟩
      | none =>
        ⟨some dr,
         ok200 ("Mouse wheel scrolled down successfully, scrolling distance: "
             ++ toString dist ++ " pixels")
           (PyVal.dict [("scroll_direction", PyVal.str "down"),
             ("scroll_distance", PyVal.int dist), ("target_tab", pyToVal t)])
           PyVal.none,
         [ECall.execScript script]⟩
    | _ =>
      let s := switch_core dr t hF swF
      if s.env.code = 200 then
        let script := "window.scrollBy(0, " ++ toString dist ++ ");"
        match exF with
        | some e => ⟨some s.driver, scrollDownFail dist t e.toExc,
            s.calls ++ [ECall.execScript script]⟩
        | none =>
          ⟨some s.driver,
           ok200 ("Mouse wheel scrolled down successfully, scrolling distance: "
               ++ toString dist ++ " pixels")
             (PyVal.dict [("scroll_direction", PyVal.str "down"),
               ("scroll_distance", PyVal.int dist), ("target_tab", pyToVal t),
               ("switch_status", PyVal.str "Successfully switched to target tab")])
             PyVal.none,
           s.calls ++ [ECall.execScript script]⟩
      else
        ⟨some s.driver, scrollDownFail dist t (Exc.genericExc s.env.message), s.calls⟩

/-- The two except-clauses of `scroll_mouse_wheel_up`. -/
def scrollUpFail (dist : Int) (t : Py) (e : Exc) : Envelope :=
  if e.isWebDriver then
    fail500 ("Failed to scroll mouse wheel up (WebDriver exception): " ++ e.msg)
      (PyVal.dict [("scroll_distance", PyVal.int dist), ("target_tab", pyToVal t)])
  else
    fail500 ("Failed to scroll mouse wheel up: " ++ e.msg)
      (PyVal.dict [("scroll_distance", PyVal.int dist), ("target_tab", pyToVal t)])

/-- Translation of `FirefoxAutoBrowser.scroll_mouse_wheel_up` (src/main.py
lines 461-518): like scrolling down but with `window.scrollBy(0, -distance);`. -/
def scroll_mouse_wheel_up (d : Option Driver) (dist : Int) (t : Py)
    (hF swF exF : Option EngFault) : OpResult :=
  match d with
  | none => ⟨none, scrollUpFail dist t (Exc.genericExc "Browser driver not initialized"), []⟩
  | some dr =>
    match t with
    | Py.none =>
      let script := "window.scrollBy(0, -" ++ toString dist ++ ");"
      match exF with
      | some e => ⟨some dr, scrollUpFail dist t e.toExc, [ECall.execScript script]⟩
      | none =>
        ⟨some dr,
         ok200 ("Mouse wheel scrolled up successfully, scrolling distance: "
             ++ toString dist ++ " pixels")
           (PyVal.dict [("scroll_direction", PyVal.str "up"),
             ("scroll_distance", PyVal.int dist), ("target_tab", pyToVal t)])
           PyVal.none,
         [ECall.execScript script]⟩
    | _ =>
      let s := switch_core dr t hF swF
      if s.env.code = 200 then
        let script := "window.scrollBy(0, -" ++ toString dist ++ ");"
        match exF with
        | some e => ⟨some s.driver, scrollUpFail dist t e.toExc,
            s.calls ++ [ECall.execScript script]⟩
        | none =>
          ⟨some s.driver,
           ok200 ("Mouse wheel scrolled up successfully, scrolling distance: "
               ++ toString dist ++ " pixels")
             (PyVal.dict [("scroll_direction", PyVal.str "up"),
               ("scroll_distance", PyVal.int dist), ("target_tab", pyToVal t),
               ("switch_status", PyVal.str "Successfully switched to target tab")])
             PyVal.none,
           s.calls ++ [ECall.execScript script]⟩
      else
        ⟨some s.driver, scrollUpFail dist t (Exc.genericExc s.env.message), s.calls⟩

/-- The string markers whose presence in a WebDriverException message makes
`close_specific_tab` treat the browsing context as gone. -/
def contextGone (m : String) : Bool :=
  containsSub "Browsing context has been discarded" m || containsSub "NoSuchWindowError" m

/-- The two except-clauses of `close_specific_tab` (src/main.py lines
783-814). A WebDriverException whose message shows the browsing context is
gone clears `self.driver` (session invalidated); other exceptions leave the
driver in place. -/
def closeHandler (dr : Driver) (target : Py) (e : Exc) (tr : List ECall) : OpResult :=
  if e.isWebDriver then
    if contextGone e.msg then
      ⟨none,
       fail500 "Browsing context invalidated (tab/browser closed), cannot continue operation"
         (PyVal.dict [("input_target", pyToVal target),
           ("error_type", PyVal.str "WebDriverException"),
           ("error_detail",
             PyVal.str "Browsing context invalidated (tab/browser closed), cannot continue operation")]),
       tr⟩
    else
      ⟨some dr,
       fail500 ("Failed to close specific tab: " ++ e.msg)
         (PyVal.dict [("input_target", pyToVal target),
           ("error_type", PyVal.str "WebDriverException"),
           ("error_detail", PyVal.str e.msg)]),
       tr⟩
  else
    ⟨some dr,
     fail500 ("Failed to close specific tab: " ++ e.msg)
       (PyVal.dict [("input_target", pyToVal target)]),
     tr⟩

/-- Resolution of the handle to close (src/main.py lines 734-751): the
current active handle when no target is given, otherwise index/handle
resolution; paired with the extra engine call it makes. -/
def closeTargetResolve (dr : Driver) (target : Py) (chF : Option EngFault) :
    Except Exc String × List ECall :=
  match target with
  | Py.none =>
    (match chF with
     | some e => .error e.toExc
     | none =>
       match dr.current with
       | none => .error (.webDriverExc noWindowMsg)
       | some c => .ok c,
     [ECall.currentWindow])
  | _ => (resolveTargetNoRange dr.handles target, [])

/-- The `target_type` value `close_specific_tab` records for a resolved
target (only reached for None / int-like / str targets). -/
def closeTargetType : Py → String
  | Py.none => "current_active"
  | Py.str _ => "handle"
  | _ => "index"

/-- The `close_detail` dict of a successful close, with the post-close keys
appended in insertion order. -/
def closeDetail (target : Py) (cnt : Nat) (h : String) (isLast : Bool)
    (post : List (String × PyVal)) : PyVal :=
  PyVal.dict ([("tab_count_before_close", PyVal.int cnt),
    ("input_target", pyToVal target),
    ("target_type", PyVal.str (closeTargetType target)),
    ("closed_handle", PyVal.str h),
    ("closed_handle_abbr", PyVal.str (abbrHandle h)),
    ("is_last_tab", PyVal.bool isLast)] ++ post)

/-- Translation of `FirefoxAutoBrowser.close_specific_tab` (src/main.py lines
714-814): resolve the handle to close, switch to it, close it; when it was
the last tab set `self.driver = None`, otherwise re-fetch the handle list and
switch to its first entry. Closing removes the handle from the engine's list
and leaves no current window until the post-close switch. -/
def close_specific_tab (d : Option Driver) (target : Py)
    (hF chF swF closeF hF2 swF2 : Option EngFault) : OpResult :=
  match d with
  | none =>
    ⟨none,
     fail500 "Failed to close specific tab: Browser driver not initialized"
       (PyVal.dict [("input_target", pyToVal target)]), []⟩
  | some dr =>
    match hF with
    | some e => closeHandler dr target e.toExc [ECall.windowHandles]
    | none =>
      let cnt := dr.handles.length
      if cnt = 0 then
        closeHandler dr target (Exc.genericExc "No available tabs to close currently")
          [ECall.windowHandles]
      else
        let res := closeTargetResolve dr target chF
        match res.1 with
        | .error e => closeHandler dr target e ([ECall.windowHandles] ++ res.2)
        | .ok h =>
          match swF with
          | some e => closeHandler dr target e.toExc
              ([ECall.windowHandles] ++ res.2 ++ [ECall.switchTo h])
          | none =>
            let dr1 := { dr with current := some h }
            match closeF with
            | some e => closeHandler dr1 target e.toExc
                ([ECall.windowHandles] ++ res.2 ++ [ECall.switchTo h, ECall.closeWindow])
            | none =>
              let dr2 := { dr1 with handles := dr1.handles.erase h, current := Option.none }
              if cnt = 1 then
                ⟨none,
                 ok200 ("Successfully closed tab: " ++ h)
                   (closeDetail target cnt h true
                     [("post_close_operation",
                       PyVal.str "Closed the last tab, browser window exited, driver context invalidated")])
                   PyVal.none,
                 [ECall.windowHandles] ++ res.2 ++ [ECall.switchTo h, ECall.closeWindow]⟩
              else
                match hF2 with
                | some e => closeHandler dr2 target e.toExc
                    ([ECall.windowHandles] ++ res.2
                      ++ [ECall.switchTo h, ECall.closeWindow, ECall.windowHandles])
                | none =>
                  match dr2.handles with
                  | [] =>
                    ⟨some dr2,
                     ok200 ("Successfully closed tab: " ++ h)
                       (closeDetail target cnt h false []) PyVal.none,
                     [ECall.windowHandles] ++ res.2
                       ++ [ECall.switchTo h, ECall.closeWindow, ECall.windowHandles]⟩
                  | r0 :: _ =>
                    match swF2 with
                    | some e => closeHandler dr2 target e.toExc
                        ([ECall.windowHandles] ++ res.2
                          ++ [ECall.switchTo h, ECall.closeWindow, ECall.windowHandles,
                            ECall.switchTo r0])
                    | none =>
                      ⟨some { dr2 with current := some r0 },
                       ok200 ("Successfully closed tab: " ++ h)
                         (closeDetail target cnt h false
                           [("post_close_operation",
                             PyVal.str "Automatically switched to the first remaining tab"),
                            ("switched_to_remaining_handle", PyVal.str r0)])
                         PyVal.none,
                       [ECall.windowHandles] ++ res.2
                         ++ [ECall.switchTo h, ECall.closeWindow, ECall.windowHandles,
                           ECall.switchTo r0]⟩

/-- Translation of `FirefoxAutoBrowser.quit_browser` (src/main.py lines
816-843): `driver.quit()` and clear the driver when one is present; a
success no-op when the driver is already gone. -/
def quit_browser (d : Option Driver) (qF : Option EngFault) : OpResult :=
  match d with
  | none =>
    ⟨none, ok200 "Browser exited successfully, resources released" PyVal.none PyVal.none, []⟩
  | some dr =>
    match qF with
    | some e =>
      ⟨some dr, fail500 ("Failed to quit browser: " ++ e.msg) PyVal.none, [ECall.quitSession]⟩
    | none =>
      ⟨none, ok200 "Browser exited successfully, resources released" PyVal.none PyVal.none,
       [ECall.quitSession]⟩

/-- One invocation of one of the twelve public operations of
`FirefoxAutoBrowser`, with its caller-supplied arguments and the fault
schedule of the engine calls it may make. -/
inductive Op where
  | createTab (newHandle : String) (exF : Option EngFault)
  | listTabs (hF : Option EngFault)
  | activeTab (chF hF : Option EngFault)
  | switchTab (target : Py) (hF swF : Option EngFault)
  | openUrl (url target : Py) (hF swF navF : Option EngFault)
  | tabContent (target : Py) (chF hF swF psF : Option EngFault)
  | scrollDown (dist : Int) (t : Py) (hF swF exF : Option EngFault)
  | scrollUp (dist : Int) (t : Py) (hF swF exF : Option EngFault)
  | clickXpath (xpath t : Py) (hF swF findF clickF : Option EngFault)
  | clickBy (loc : Py) (lt : String) (t : Py) (hF swF findF scrollF clickF : Option EngFault)
  | closeTab (target : Py) (hF chF swF closeF hF2 swF2 : Option EngFault)
  | quitOp (qF : Option EngFault)

/-- Dispatch of one operation against a driver state. -/
def Op.run : Op → Option Driver → OpResult
  | .createTab nh exF, d => create_new_tab d nh exF
  | .listTabs hF, d => get_all_tabs d hF
  | .activeTab chF hF, d => get_active_tab d chF hF
  | .switchTab t hF swF, d => switch_to_specific_tab d t hF swF
  | .openUrl u t hF swF navF, d => open_url_in_specific_tab d u t hF swF navF
  | .tabContent t chF hF swF psF, d => get_specific_tab_page_content d t chF hF swF psF
  | .scrollDown dist t hF swF exF, d => scroll_mouse_wheel_down d dist t hF swF exF
  | .scrollUp dist t hF swF exF, d => scroll_mouse_wheel_up d dist t hF swF exF
  | .clickXpath x t hF swF fF cF, d => click_element_by_xpath d x t hF swF fF cF
  | .clickBy l lt t hF swF fF sF cF, d => click_element d l lt t hF swF fF sF cF
  | .closeTab t hF chF swF closeF hF2 swF2, d =>
      close_specific_tab d t hF chF swF closeF hF2 swF2
  | .quitOp qF, d => quit_browser d qF

/-- Whether the operation is `quit_browser`. -/
def Op.isQuit : Op → Bool
  | .quitOp _ => true
  | _ => false

/-- Whether the operation is `close_specific_tab`. -/
def Op.isClose : Op → Bool
  | .closeTab .. => true
  | _ => false

/-- A demonstration driver state used by the concrete witnesses: two tabs
"A" and "B", tab "A" active, a fixed page source, no locatable elements. -/
def demoDriver : Driver :=
  { handles := ["A", "B"], current := some "A", pageSource := "<html></html>", elems := [] }

/-- A three-tab demonstration driver state used by the close-tab witnesses. -/
def demoDriver3 : Driver :=
  { handles := ["A", "B", "C"], current := some "A", pageSource := "", elems := [] }

/-- A one-tab demonstration driver state used by the last-tab witnesses. -/
def demoDriver1 : Driver :=
  { handles := ["A"], current := some "A", pageSource := "", elems := [] }

/-- Whether the operation belongs to the click family
(`click_element_by_xpath` or `click_element`). -/
def Op.isClickFamily : Op → Bool
  | .clickXpath .. => true
  | .clickBy .. => true
  | _ => false

/-- The condition "the click operation's element lookup found zero elements
matching the locator": a click run against a live driver, with a validated
(non-empty string) locator of a supported scheme that matches no element of
the page. -/
def clickNotFound : Op → Option Driver → Prop
  | .clickXpath x _ _ _ _ _, some dr =>
      ∃ s, x = Py.str s ∧ s ≠ "" ∧ (ByQ.byXpath, s) ∉ dr.elems
  | .clickBy l lt _ _ _ _ _ _, some dr =>
      ∃ s b, l = Py.str s ∧ s ≠ "" ∧ byOf lt = some b ∧ (b, s) ∉ dr.elems
  | _, _ => False

/-- The caller-supplied input parameters the operation's failure handlers
record in `detail` (empty for the parameterless operations, whose failure
detail is null). -/
def inputDetail : Op → List (String × PyVal)
  | .createTab .. => []
  | .listTabs .. => []
  | .activeTab .. => []
  | .switchTab t _ _ => [("input_target", pyToVal t)]
  | .openUrl u t _ _ _ => [("target_tab", pyToVal t), ("input_url", pyToVal u)]
  | .tabContent t _ _ _ _ => [("input_target", pyToVal t)]
  | .scrollDown dist t _ _ _ =>
      [("scroll_distance", PyVal.int dist), ("target_tab", pyToVal t)]
  | .scrollUp dist t _ _ _ =>
      [("scroll_distance", PyVal.int dist), ("target_tab", pyToVal t)]
  | .clickXpath x t _ _ _ _ => [("xpath_expression", pyToVal x), ("target_tab", pyToVal t)]
  | .clickBy l lt t _ _ _ _ _ =>
      [("locator_type", PyVal.str lt), ("locator_expression", pyToVal l),
       ("target_tab", pyToVal t)]
  | .closeTab t _ _ _ _ _ _ => [("input_target", pyToVal t)]
  | .quitOp _ => []

/-- Whether a detail value is a dict containing the given key-value pair. -/
def detailHas : PyVal → String × PyVal → Prop
  | PyVal.dict kvs, kv => kv ∈ kvs
  | _, _ => False

/-- The Result Envelope invariant of the spec: `status == "success" ⇔ code ==
200`, and `data` is populated (non-null) only on success. -/
def envInv (e : Envelope) : Prop :=
  (e.status = "success" ↔ e.code = 200) ∧ (e.data.isNone = false → e.status = "success")

theorem envInv_ok200 (m : String) (dt da : PyVal) : envInv (ok200 m dt da) :=
  ⟨⟨fun _ => rfl, fun _ => rfl⟩, fun _ => rfl⟩

theorem envInv_fail500 (m : String) (dt : PyVal) : envInv (fail500 m dt) := by
  simp [envInv, fail500, PyVal.isNone]

theorem envInv_fail404 (m : String) (dt : PyVal) : envInv (fail404 m dt) := by
  simp [envInv, fail404, PyVal.isNone]

theorem envInv_create (d : Option Driver) (nh : String) (exF : Option EngFault) :
    envInv (create_new_tab d nh exF).env := by
  unfold create_new_tab
  try dsimp only
  repeat' split
  all_goals first
    | exact envInv_ok200 _ _ _
    | exact envInv_fail500 _ _

theorem envInv_listTabs (d : Option Driver) (hF : Option EngFault) :
    envInv (get_all_tabs d hF).env := by
  unfold get_all_tabs
  try dsimp only
  repeat' split
  all_goals first
    | exact envInv_ok200 _ _ _
    | exact envInv_fail500 _ _

theorem envInv_activeTab (d : Option Driver) (chF hF : Option EngFault) :
    envInv (get_active_tab d chF hF).env := by
  unfold get_active_tab activeFail
  try dsimp only
  repeat' split
  all_goals first
    | exact envInv_ok200 _ _ _
    | exact envInv_fail500 _ _

theorem envInv_switch_core (dr : Driver) (t : Py) (hF swF : Option EngFault) :
    envInv (switch_core dr t hF swF).env := by
  unfold switch_core switchFail
  try dsimp only
  repeat' split
  all_goals first
    | exact envInv_ok200 _ _ _
    | exact envInv_fail500 _ _

theorem envInv_switchTab (d : Option Driver) (t : Py) (hF swF : Option EngFault) :
    envInv (switch_to_specific_tab d t hF swF).env := by
  unfold switch_to_specific_tab
  try dsimp only
  repeat' split
  · exact envInv_fail500 _ _
  · exact envInv_switch_core _ _ _ _

theorem envInv_openUrl (d : Option Driver) (u t : Py) (hF swF navF : Option EngFault) :
    envInv (open_url_in_specific_tab d u t hF swF navF).env := by
  unfold open_url_in_specific_tab openUrlFail
  try dsimp only
  repeat' split
  all_goals first
    | exact envInv_ok200 _ _ _
    | exact envInv_fail500 _ _

theorem envInv_tabContent (d : Option Driver) (t : Py) (chF hF swF psF : Option EngFault) :
    envInv (get_specific_tab_page_content d t chF hF swF psF).env := by
  unfold get_specific_tab_page_content contentFail
  try dsimp only
  repeat' split
  all_goals first
    | exact envInv_ok200 _ _ _
    | exact envInv_fail500 _ _

theorem envInv_scrollDown (d : Option Driver) (dist : Int) (t : Py)
    (hF swF exF : Option EngFault) : envInv (scroll_mouse_wheel_down d dist t hF swF exF).env := by
  unfold scroll_mouse_wheel_down scrollDownFail
  try dsimp only
  repeat' split
  all_goals first
    | exact envInv_ok200 _ _ _
    | exact envInv_fail500 _ _

theorem envInv_scrollUp (d : Option Driver) (dist : Int) (t : Py)
    (hF swF exF : Option EngFault) : envInv (scroll_mouse_wheel_up d dist t hF swF exF).env := by
  unfold scroll_mouse_wheel_up scrollUpFail
  try dsimp only
  repeat' split
  all_goals first
    | exact envInv_ok200 _ _ _
    | exact envInv_fail500 _ _

theorem envInv_clickXpathFail (x t : Py) (e : Exc) : envInv (clickXpathFail x t e) := by
  unfold clickXpathFail
  try dsimp only
  repeat' split
  all_goals first
    | exact envInv_fail404 _ _
    | exact envInv_fail500 _ _

theorem envInv_click_xpath_act (dr : Driver) (x t : Py) (sw : Bool) (tr : List ECall)
    (fF cF : Option EngFault) : envInv (click_xpath_act dr x t sw tr fF cF).env := by
  unfold click_xpath_act
  try dsimp only
  repeat' split
  all_goals first
    | exact envInv_ok200 _ _ _
    | exact envInv_clickXpathFail _ _ _

theorem envInv_clickXpath (d : Option Driver) (x t : Py) (hF swF fF cF : Option EngFault) :
    envInv (click_element_by_xpath d x t hF swF fF cF).env := by
  unfold click_element_by_xpath
  try dsimp only
  repeat' split
  all_goals first
    | exact envInv_click_xpath_act _ _ _ _ _ _ _
    | exact envInv_clickXpathFail _ _ _

theorem envInv_clickElemFail (l : Py) (lt : String) (t : Py) (e : Exc) :
    envInv (clickElemFail l lt t e) := by
  unfold clickElemFail
  try dsimp only
  repeat' split
  all_goals first
    | exact envInv_fail404 _ _
    | exact envInv_fail500 _ _

theorem envInv_click_elem_act (dr : Driver) (l : Py) (lt : String) (b : ByQ) (t : Py)
    (sw : Bool) (tr : List ECall) (fF sF cF : Option EngFault) :
    envInv (click_elem_act dr l lt b t sw tr fF sF cF).env := by
  unfold click_elem_act
  try dsimp only
  repeat' split
  all_goals first
    | exact envInv_ok200 _ _ _
    | exact envInv_clickElemFail _ _ _ _

theorem envInv_clickBy (d : Option Driver) (l : Py) (lt : String) (t : Py)
    (hF swF fF sF cF : Option EngFault) : envInv (click_element d l lt t hF swF fF sF cF).env := by
  unfold click_element
  try dsimp only
  repeat' split
  all_goals first
    | exact envInv_click_elem_act _ _ _ _ _ _ _ _ _ _
    | exact envInv_clickElemFail _ _ _ _

theorem envInv_closeHandler (dr : Driver) (t : Py) (e : Exc) (tr : List ECall) :
    envInv (closeHandler dr t e tr).env := by
  unfold closeHandler
  try dsimp only
  repeat' split
  all_goals exact envInv_fail500 _ _

theorem envInv_closeTab (d : Option Driver) (t : Py)
    (hF chF swF closeF hF2 swF2 : Option EngFault) :
    envInv (close_specific_tab d t hF chF swF closeF hF2 swF2).env := by
  unfold close_specific_tab
  try dsimp only
  repeat' split
  all_goals first
    | exact envInv_ok200 _ _ _
    | exact envInv_fail500 _ _
    | exact envInv_closeHandler _ _ _ _

theorem envInv_quit (d : Option Driver) (qF : Option EngFault) :
    envInv (quit_browser d qF).env := by
  unfold quit_browser
  try dsimp only
  repeat' split
  all_goals first
    | exact envInv_ok200 _ _ _
    | exact envInv_fail500 _ _

theorem envInv_run (op : Op) (d : Option Driver) : envInv (op.run d).env := by
  cases op with
  | createTab nh exF => exact envInv_create d nh exF
  | listTabs hF => exact envInv_listTabs d hF
  | activeTab chF hF => exact envInv_activeTab d chF hF
  | switchTab t hF swF => exact envInv_switchTab d t hF swF
  | openUrl u t hF swF navF => exact envInv_openUrl d u t hF swF navF
  | tabContent t chF hF swF psF => exact envInv_tabContent d t chF hF swF psF
  | scrollDown dist t hF swF exF => exact envInv_scrollDown d dist t hF swF exF
  | scrollUp dist t hF swF exF => exact envInv_scrollUp d dist t hF swF exF
  | clickXpath x t hF swF fF cF => exact envInv_clickXpath d x t hF swF fF cF
  | clickBy l lt t hF swF fF sF cF => exact envInv_clickBy d l lt t hF swF fF sF cF
  | closeTab t hF chF swF closeF hF2 swF2 =>
      exact envInv_closeTab d t hF chF swF closeF hF2 swF2
  | quitOp qF => exact envInv_quit d qF

/-- C1: For every operation (success or failure) the returned Result
Envelope satisfies: status is "success" if and only if code is 200, and the
data field is non-null only when status is "success". -/
theorem claim_C1_envelope_invariant (op : Op) (d : Option Driver) :
    ((op.run d).env.status = "success" ↔ (op.run d).env.code = 200)
    ∧ ((op.run d).env.data.isNone = false → (op.run d).env.status = "success") :=
  envInv_run op d

/-- C2: For every integer tab identifier i and tab count N,
`switch_to_specific_tab` run on a live driver with no engine faults: if
0 <= i < N it succeeds and switches to the i-th handle of the freshly
fetched handle list; if i is outside that range it fails with code 500, the
driver state unchanged, and the failure message cites exactly the range
0~N-1 (that is, [0, N-1]). -/
theorem claim_C2_switch_index_resolution (dr : Driver) (i : Int) :
    (0 ≤ i → i < (dr.handles.length : Int) →
      (switch_to_specific_tab (some dr) (Py.int i) none none).env.code = 200
      ∧ (switch_to_specific_tab (some dr) (Py.int i) none none).env.status = "success"
      ∧ (switch_to_specific_tab (some dr) (Py.int i) none none).driver
          = some { dr with current := some (dr.handles.getD i.toNat "") }
      ∧ (switch_to_specific_tab (some dr) (Py.int i) none none).calls
          = [ECall.windowHandles, ECall.switchTo (dr.handles.getD i.toNat "")])
    ∧ (¬ (0 ≤ i ∧ i < (dr.handles.length : Int)) →
      (switch_to_specific_tab (some dr) (Py.int i) none none).env.code = 500
      ∧ (switch_to_specific_tab (some dr) (Py.int i) none none).env.status = "failed"
      ∧ (switch_to_specific_tab (some dr) (Py.int i) none none).driver = some dr
      ∧ (switch_to_specific_tab (some dr) (Py.int i) none none).env.message
          = "Failed to switch to specific tab: Tab index " ++ toString i
            ++ " is invalid, only " ++ toString dr.handles.length
            ++ " tabs exist currently (index 0~"
            ++ toString ((dr.handles.length : Int) - 1) ++ ")") := by
  constructor
  · intro h0 hlt
    have hres : resolveTargetRange dr.handles (Py.int i)
        = Except.ok (dr.handles.getD i.toNat "") := by
      simp [resolveTargetRange, pyIsInt, pyToInt, h0, hlt]
    simp [switch_to_specific_tab, switch_core, hres, ok200]
  · intro h
    have hres : resolveTargetRange dr.handles (Py.int i)
        = Except.error (Exc.genericExc (idxRangeMsg (Py.int i) dr.handles.length)) := by
      simp only [resolveTargetRange, pyIsInt, pyToInt, if_true]
      rw [if_neg h]
    simp [switch_to_specific_tab, switch_core, hres, switchFail, fail500, idxRangeMsg,
      pyStr, Exc.msg, String.append_assoc]
    rw [← String.append_assoc]
    rfl

/-- C6: quit is idempotent: with the engine quit call behaving on the first
invocation, calling quit twice in a row returns a success envelope (code
200) both times — for every starting driver state, including an already
invalidated one — and whatever fault schedule the second call gets, it makes
no engine call at all. -/
theorem claim_C6_quit_idempotent (d : Option Driver) (f2 : Option EngFault) :
    (quit_browser d none).env.code = 200
    ∧ (quit_browser d none).env.status = "success"
    ∧ (quit_browser (quit_browser d none).driver f2).env.code = 200
    ∧ (quit_browser (quit_browser d none).driver f2).env.status = "success"
    ∧ (quit_browser (quit_browser d none).driver f2).calls = [] := by
  cases d <;> simp [quit_browser, ok200]

theorem live_create (dr : Driver) (nh : String) (exF : Option EngFault) :
    ∃ dr', (create_new_tab (some dr) nh exF).driver = some dr' := by
  unfold create_new_tab
  try dsimp only
  repeat' split
  all_goals exact ⟨_, rfl⟩

theorem live_listTabs (dr : Driver) (hF : Option EngFault) :
    ∃ dr', (get_all_tabs (some dr) hF).driver = some dr' := by
  unfold get_all_tabs
  try dsimp only
  repeat' split
  all_goals exact ⟨_, rfl⟩

theorem live_activeTab (dr : Driver) (chF hF : Option EngFault) :
    ∃ dr', (get_active_tab (some dr) chF hF).driver = some dr' := by
  unfold get_active_tab
  try dsimp only
  repeat' split
  all_goals exact ⟨_, rfl⟩

theorem live_switchTab (dr : Driver) (t : Py) (hF swF : Option EngFault) :
    ∃ dr', (switch_to_specific_tab (some dr) t hF swF).driver = some dr' := by
  unfold switch_to_specific_tab
  try dsimp only
  repeat' split
  all_goals exact ⟨_, rfl⟩

theorem live_openUrl (dr : Driver) (u t : Py) (hF swF navF : Option EngFault) :
    ∃ dr', (open_url_in_specific_tab (some dr) u t hF swF navF).driver = some dr' := by
  unfold open_url_in_specific_tab
  try dsimp only
  repeat' split
  all_goals exact ⟨_, rfl⟩

theorem live_tabContent (dr : Driver) (t : Py) (chF hF swF psF : Option EngFault) :
    ∃ dr', (get_specific_tab_page_content (some dr) t chF hF swF psF).driver = some dr' := by
  unfold get_specific_tab_page_content
  try dsimp only
  repeat' split
  all_goals exact ⟨_, rfl⟩

theorem live_scrollDown (dr : Driver) (dist : Int) (t : Py) (hF swF exF : Option EngFault) :
    ∃ dr', (scroll_mouse_wheel_down (some dr) dist t hF swF exF).driver = some dr' := by
  unfold scroll_mouse_wheel_down
  try dsimp only
  repeat' split
  all_goals exact ⟨_, rfl⟩

theorem live_scrollUp (dr : Driver) (dist : Int) (t : Py) (hF swF exF : Option EngFault) :
    ∃ dr', (scroll_mouse_wheel_up (some dr) dist t hF swF exF).driver = some dr' := by
  unfold scroll_mouse_wheel_up
  try dsimp only
  repeat' split
  all_goals exact ⟨_, rfl⟩

theorem live_clickXpath (dr : Driver) (x t : Py) (hF swF fF cF : Option EngFault) :
    ∃ dr', (click_element_by_xpath (some dr) x t hF swF fF cF).driver = some dr' := by
  unfold click_element_by_xpath click_xpath_act
  try dsimp only
  repeat' split
  all_goals exact ⟨_, rfl⟩

theorem live_clickBy (dr : Driver) (l : Py) (lt : String) (t : Py)
    (hF swF fF sF cF : Option EngFault) :
    ∃ dr', (click_element (some dr) l lt t hF swF fF sF cF).driver = some dr' := by
  unfold click_element click_elem_act
  try dsimp only
  repeat' split
  all_goals exact ⟨_, rfl⟩

theorem live_quit_failed (dr : Driver) (qF : Option EngFault)
    (hf : (quit_browser (some dr) qF).env.status = "failed") :
    ∃ dr', (quit_browser (some dr) qF).driver = some dr' := by
  cases qF with
  | some e => exact ⟨dr, rfl⟩
  | none => simp [quit_browser, ok200] at hf

theorem run_keeps_driver (op : Op) (dr : Driver) (hnc : Op.isClose op = false)
    (hf : (op.run (some dr)).env.status = "failed") :
    ∃ dr', (op.run (some dr)).driver = some dr' := by
  cases op with
  | createTab nh exF => exact live_create dr nh exF
  | listTabs hF => exact live_listTabs dr hF
  | activeTab chF hF => exact live_activeTab dr chF hF
  | switchTab t hF swF => exact live_switchTab dr t hF swF
  | openUrl u t hF swF navF => exact live_openUrl dr u t hF swF navF
  | tabContent t chF hF swF psF => exact live_tabContent dr t chF hF swF psF
  | scrollDown dist t hF swF exF => exact live_scrollDown dr dist t hF swF exF
  | scrollUp dist t hF swF exF => exact live_scrollUp dr dist t hF swF exF
  | clickXpath x t hF swF fF cF => exact live_clickXpath dr x t hF swF fF cF
  | clickBy l lt t hF swF fF sF cF => exact live_clickBy dr l lt t hF swF fF sF cF
  | closeTab t hF chF swF closeF hF2 swF2 => simp [Op.isClose] at hnc
  | quitOp qF => exact live_quit_failed dr qF hf

/-- C3 counterexample: `get_all_tabs` hit by an engine error whose message
indicates the browsing context no longer exists returns a failure envelope
but leaves the driver in place — the session is not invalidated, refuting
the claim that every operation transitions to Invalidated on such errors. -/
theorem claim_C3_counterexample_get_all_tabs :
    (get_all_tabs (some demoDriver)
        (some (EngFault.webDriver "Browsing context has been discarded"))).driver
      = some demoDriver
    ∧ (get_all_tabs (some demoDriver)
        (some (EngFault.webDriver "Browsing context has been discarded"))).env.status
      = "failed"
    ∧ (get_all_tabs (some demoDriver)
        (some (EngFault.webDriver "Browsing context has been discarded"))).env.code = 500 :=
  ⟨rfl, rfl, rfl⟩

/-- C3 (amended): only `close_specific_tab` performs the invalidation: when
one of its engine calls raises a WebDriverException whose message contains
"Browsing context has been discarded" (or "NoSuchWindowError"), it clears
the driver while returning a 500 failure envelope; no other operation's
failure handling clears the driver — whenever any non-close operation run
on a live driver fails, with any arguments and any injected engine faults
(context-gone messages included), the driver remains live — shown
concretely for `get_all_tabs` and `get_specific_tab_page_content` hit by
the same engine error, whose state is moreover left unchanged. -/
theorem claim_C3_only_close_invalidates (dr : Driver) (t : Py) (m : String)
    (hm : containsSub "Browsing context has been discarded" m = true) :
    (close_specific_tab (some dr) t (some (EngFault.webDriver m)) none none none none
        none).driver = none
    ∧ (close_specific_tab (some dr) t (some (EngFault.webDriver m)) none none none none
        none).env.code = 500
    ∧ (close_specific_tab (some dr) t (some (EngFault.webDriver m)) none none none none
        none).env.status = "failed"
    ∧ (∀ op : Op, ∀ dr2 : Driver, Op.isClose op = false →
        (op.run (some dr2)).env.status = "failed" →
        ∃ dr', (op.run (some dr2)).driver = some dr')
    ∧ (get_all_tabs (some dr) (some (EngFault.webDriver m))).driver = some dr
    ∧ (get_all_tabs (some dr) (some (EngFault.webDriver m))).env.status = "failed"
    ∧ (get_specific_tab_page_content (some dr) Py.none (some (EngFault.webDriver m)) none
        none none).driver = some dr
    ∧ (get_specific_tab_page_content (some dr) Py.none (some (EngFault.webDriver m)) none
        none none).env.status = "failed" := by
  refine ⟨?_, ?_, ?_, fun op dr2 hnc hf => run_keeps_driver op dr2 hnc hf,
    rfl, rfl, rfl, rfl⟩ <;>
    simp [close_specific_tab, closeHandler, EngFault.toExc, Exc.isWebDriver, Exc.msg,
      contextGone, hm, fail500]

theorem claim_C3_only_close_invalidates_witness :
    (close_specific_tab (some demoDriver) Py.none
        (some (EngFault.webDriver "Browsing context has been discarded")) none none none
        none none).driver = none :=
  (claim_C3_only_close_invalidates demoDriver Py.none
    "Browsing context has been discarded" (by rfl)).1

/-- C4 counterexample: after closing the only open tab the session is
invalidated, yet the subsequent operation `quit_browser` returns a success
envelope with code 200, not a code-500 failure — refuting "every subsequent
operation fails with code 500". -/
theorem claim_C4_counterexample_quit_after_invalidation :
    (close_specific_tab
        (some { handles := ["A"], current := some "A", pageSource := "", elems := [] })
        (Py.int 0) none none none none none none).driver = none
    ∧ (Op.run (Op.quitOp none) none).env.code = 200
    ∧ ¬ (Op.run (Op.quitOp none) none).env.code = 500 :=
  ⟨rfl, rfl, by decide⟩

/-- C4 (amended): when close_tab is called with exactly one tab open (here
by index 0) the driver is cleared (SessionState Invalidated) and no
post-close switch is attempted — the trace stops at the close call; from the
invalidated state every subsequent operation makes no engine call, returns
`driver = none`, and fails with code 500 — except `quit_browser`, which
returns a success (200) no-op. -/
theorem claim_C4_close_last_invalidates (dr : Driver) (h : String)
    (hh : dr.handles = [h]) :
    (close_specific_tab (some dr) (Py.int 0) none none none none none none).driver = none
    ∧ (close_specific_tab (some dr) (Py.int 0) none none none none none none).env.code = 200
    ∧ (close_specific_tab (some dr) (Py.int 0) none none none none none none).calls
        = [ECall.windowHandles, ECall.switchTo h, ECall.closeWindow]
    ∧ (∀ op : Op, (op.run none).driver = none ∧ (op.run none).calls = []
        ∧ (op.isQuit = false →
            (op.run none).env.code = 500 ∧ (op.run none).env.status = "failed")
        ∧ (op.isQuit = true →
            (op.run none).env.code = 200 ∧ (op.run none).env.status = "success")) := by
  have hres : resolveTargetNoRange [h] (Py.int 0) = Except.ok h := by
    simp [resolveTargetNoRange, pyIsInt, pyToInt]
  refine ⟨?_, ?_, ?_, ?_⟩
  · simp [close_specific_tab, closeTargetResolve, hres, hh, ok200]
  · simp [close_specific_tab, closeTargetResolve, hres, hh, ok200]
  · simp [close_specific_tab, closeTargetResolve, hres, hh, ok200]
  · intro op
    cases op <;>
      simp [Op.run, Op.isQuit, create_new_tab, get_all_tabs, get_active_tab,
        switch_to_specific_tab, open_url_in_specific_tab, get_specific_tab_page_content,
        scroll_mouse_wheel_down, scroll_mouse_wheel_up, click_element_by_xpath,
        click_element, close_specific_tab, quit_browser, activeFail, switchFail,
        openUrlFail, contentFail, scrollDownFail, scrollUpFail, clickXpathFail,
        clickElemFail, Exc.msg, Exc.isWebDriver, fail500, ok200]

theorem claim_C4_close_last_invalidates_witness :
    (close_specific_tab
        (some { handles := ["A"], current := some "A", pageSource := "", elems := [] })
        (Py.int 0) none none none none none none).driver = none :=
  (claim_C4_close_last_invalidates
    { handles := ["A"], current := some "A", pageSource := "", elems := [] } "A" rfl).1

/-- C9: `get_specific_tab_page_content` called with an absent target reads
the current active context — the engine-call trace contains no switch — and
on success its data field is the full untruncated page source with
`detail.content_length` equal to the length of the data. -/
theorem claim_C9_content_absent_target (dr : Driver) (c : String)
    (hc : dr.current = some c) :
    (get_specific_tab_page_content (some dr) Py.none none none none none).env.code = 200
    ∧ (get_specific_tab_page_content (some dr) Py.none none none none none).env.status
        = "success"
    ∧ (get_specific_tab_page_content (some dr) Py.none none none none none).env.data
        = PyVal.str dr.pageSource
    ∧ (get_specific_tab_page_content (some dr) Py.none none none none none).env.detail
        = PyVal.dict [("target_type", PyVal.str "current_active"),
            ("target_handle", PyVal.str c),
            ("target_handle_abbr", PyVal.str (abbrHandle c)),
            ("content_length", PyVal.int dr.pageSource.length)]
    ∧ (get_specific_tab_page_content (some dr) Py.none none none none none).calls
        = [ECall.currentWindow, ECall.pageSource]
    ∧ (get_specific_tab_page_content (some dr) Py.none none none none none).driver
        = some dr := by
  simp [get_specific_tab_page_content, hc, ok200]

theorem claim_C9_content_absent_target_witness :
    (get_specific_tab_page_content (some demoDriver) Py.none none none none none).env.data
      = PyVal.str "<html></html>" :=
  (claim_C9_content_absent_target demoDriver "A" rfl).2.2.1

/-- C5: closing a non-last tab (here by index, with more than one tab open
and distinct handles) leaves the session Active: the driver survives with
the closed handle removed, the engine is switched to the first handle of the
freshly re-fetched snapshot, and a subsequent `get_active_tab` with no
arguments succeeds, reporting that handle. -/
theorem claim_C5_close_nonlast_keeps_session (dr : Driver) (i : Nat)
    (_hnd : dr.handles.Nodup) (hi : i < dr.handles.length)
    (hgt : 1 < dr.handles.length) :
    ∃ d' r0 rest,
      dr.handles.erase (dr.handles.getD i "") = r0 :: rest
      ∧ (close_specific_tab (some dr) (Py.int i) none none none none none none).driver
          = some d'
      ∧ (close_specific_tab (some dr) (Py.int i) none none none none none none).env.code
          = 200
      ∧ (close_specific_tab (some dr) (Py.int i) none none none none none none).env.status
          = "success"
      ∧ d'.handles = dr.handles.erase (dr.handles.getD i "")
      ∧ d'.current = some r0
      ∧ (get_active_tab (some d') none none).env.code = 200
      ∧ (get_active_tab (some d') none none).env.status = "success"
      ∧ (get_active_tab (some d') none none).env.data = PyVal.str r0 := by
  set g := dr.handles.getD i "" with hg
  have hmem : g ∈ dr.handles := by
    rw [hg, List.getD_eq_getElem _ _ hi]
    exact List.getElem_mem hi
  have hlen : (dr.handles.erase g).length + 1 = dr.handles.length :=
    List.length_erase_add_one hmem
  have hne : dr.handles.erase g ≠ [] := by
    intro hnil
    rw [hnil] at hlen
    simp at hlen
    omega
  obtain ⟨r0, rest, hrem⟩ := List.exists_cons_of_ne_nil hne
  have hres : resolveTargetNoRange dr.handles (Py.int i) = Except.ok g := by
    have h0 : (0 : Int) ≤ (i : Int) := Int.natCast_nonneg i
    have hlt : (i : Int) < (dr.handles.length : Int) := by exact_mod_cast hi
    simp [resolveTargetNoRange, pyIsInt, pyToInt, h0, hlt, hg]
  have hc0 : ¬ dr.handles.length = 0 := by omega
  have hc1 : ¬ dr.handles.length = 1 := by omega
  refine ⟨⟨dr.handles.erase g, some r0, dr.pageSource, dr.elems⟩, r0, rest, hrem, ?_⟩
  have hmm : r0 ∈ dr.handles.erase g := by
    rw [hrem]
    exact List.mem_cons_self _ _
  simp [close_specific_tab, closeTargetResolve, hres, hrem, hc0, hc1, ok200,
    get_active_tab, hmm]

theorem claim_C5_close_nonlast_keeps_session_witness :
    ∃ d' r0 rest,
      demoDriver3.handles.erase (demoDriver3.handles.getD 1 "") = r0 :: rest
      ∧ (close_specific_tab (some demoDriver3) (Py.int 1) none none none none none
          none).driver = some d'
      ∧ (close_specific_tab (some demoDriver3) (Py.int 1) none none none none none
          none).env.code = 200
      ∧ (close_specific_tab (some demoDriver3) (Py.int 1) none none none none none
          none).env.status = "success"
      ∧ d'.handles = demoDriver3.handles.erase (demoDriver3.handles.getD 1 "")
      ∧ d'.current = some r0
      ∧ (get_active_tab (some d') none none).env.code = 200
      ∧ (get_active_tab (some d') none none).env.status = "success"
      ∧ (get_active_tab (some d') none none).env.data = PyVal.str r0 :=
  claim_C5_close_nonlast_keeps_session demoDriver3 1 (by decide) (by decide) (by decide)

theorem msg_head_ne {s t : String} (hs : s.data.head? = some 'T')
    (ht : t.data.head? = some 'I') : s ≠ t := by
  intro he
  rw [he, ht] at hs
  exact absurd hs (by decide)

theorem idxRangeMsg_ne_typeMismatch (target : Py) (n : Nat) :
    idxRangeMsg target n ≠ typeMismatchMsg :=
  msg_head_ne rfl rfl

theorem idxNoRangeMsg_ne_typeMismatch (target : Py) (n : Nat) :
    idxNoRangeMsg target n ≠ typeMismatchMsg :=
  msg_head_ne rfl rfl

theorem badHandleMsg_ne_typeMismatch (target : Py) :
    badHandleMsg target ≠ typeMismatchMsg :=
  msg_head_ne rfl rfl

/-- C10: because `isinstance(target, int)` is tested before
`isinstance(target, str)` and Python's bool is a subclass of int, a boolean
tab identifier is accepted and resolved as an index — True as index 1, False
as index 0 — both by `switch_to_specific_tab` and by the duplicated
resolution of `close_specific_tab`/`get_specific_tab_page_content`
(`resolveTargetNoRange`); the type-mismatch error is produced exactly for
target values that are neither int (bools included) nor str. -/
theorem claim_C10_bool_target_resolved_as_index (dr : Driver) (b : Bool) (t : Py) :
    ((if b then 1 else 0) < dr.handles.length →
      (switch_to_specific_tab (some dr) (Py.bool b) none none).env.code = 200
      ∧ (switch_to_specific_tab (some dr) (Py.bool b) none none).env.status = "success"
      ∧ (switch_to_specific_tab (some dr) (Py.bool b) none none).driver
          = some { dr with current := some (dr.handles.getD (if b then 1 else 0) "") })
    ∧ ((if b then 1 else 0) < dr.handles.length →
      resolveTargetNoRange dr.handles (Py.bool b)
        = Except.ok (dr.handles.getD (if b then 1 else 0) ""))
    ∧ (resolveTargetRange dr.handles t = Except.error (Exc.genericExc typeMismatchMsg)
        ↔ pyIsInt t = false ∧ pyIsStr t = false) := by
  refine ⟨?_, ?_, ?_, ?_⟩
  · intro hlt
    cases b
    · have h1 : (0 : Int) < (dr.handles.length : Int) := by exact_mod_cast (by simpa using hlt)
      simp [switch_to_specific_tab, switch_core, resolveTargetRange, pyIsInt, pyToInt,
        h1, ok200]
    · have h1 : (1 : Int) < (dr.handles.length : Int) := by exact_mod_cast (by simpa using hlt)
      simp [switch_to_specific_tab, switch_core, resolveTargetRange, pyIsInt, pyToInt,
        h1, ok200]
  · intro hlt
    cases b
    · have h1 : (0 : Int) < (dr.handles.length : Int) := by exact_mod_cast (by simpa using hlt)
      simp [resolveTargetNoRange, pyIsInt, pyToInt, h1]
    · have h1 : (1 : Int) < (dr.handles.length : Int) := by exact_mod_cast (by simpa using hlt)
      simp [resolveTargetNoRange, pyIsInt, pyToInt, h1]
  · intro he
    cases t with
    | none => exact ⟨rfl, rfl⟩
    | floatV n => exact ⟨rfl, rfl⟩
    | int i =>
      exfalso
      simp only [resolveTargetRange, pyIsInt, pyToInt, if_true] at he
      split at he
      · simp at he
      · simp only [Except.error.injEq, Exc.genericExc.injEq] at he
        exact idxRangeMsg_ne_typeMismatch _ _ he
    | bool c =>
      exfalso
      simp only [resolveTargetRange, pyIsInt, pyToInt, if_true] at he
      repeat' split at he
      all_goals
        first
          | (simp only [Except.error.injEq, Exc.genericExc.injEq] at he
             exact idxRangeMsg_ne_typeMismatch _ _ he)
          | simp at he
    | str s =>
      exfalso
      simp only [resolveTargetRange, pyIsInt, pyIsStr, pyAsStr, if_true,
        Bool.false_eq_true, if_false] at he
      split at he
      · simp at he
      · simp only [Except.error.injEq, Exc.genericExc.injEq] at he
        exact badHandleMsg_ne_typeMismatch _ he
  · rintro ⟨h1, h2⟩
    simp [resolveTargetRange, h1, h2]

theorem switch_core_elems (dr : Driver) (t : Py) (hF swF : Option EngFault) :
    (switch_core dr t hF swF).driver.elems = dr.elems := by
  unfold switch_core
  try dsimp only
  repeat' split
  all_goals rfl

theorem codes_create (d : Option Driver) (nh : String) (exF : Option EngFault) :
    (create_new_tab d nh exF).env.code = 200 ∨ (create_new_tab d nh exF).env.code = 500 := by
  unfold create_new_tab
  try dsimp only
  repeat' split
  all_goals first | exact Or.inl rfl | exact Or.inr rfl

theorem codes_listTabs (d : Option Driver) (hF : Option EngFault) :
    (get_all_tabs d hF).env.code = 200 ∨ (get_all_tabs d hF).env.code = 500 := by
  unfold get_all_tabs
  try dsimp only
  repeat' split
  all_goals first | exact Or.inl rfl | exact Or.inr rfl

theorem codes_activeTab (d : Option Driver) (chF hF : Option EngFault) :
    (get_active_tab d chF hF).env.code = 200 ∨ (get_active_tab d chF hF).env.code = 500 := by
  unfold get_active_tab activeFail
  try dsimp only
  repeat' split
  all_goals first | exact Or.inl rfl | exact Or.inr rfl

theorem codes_switch_core (dr : Driver) (t : Py) (hF swF : Option EngFault) :
    (switch_core dr t hF swF).env.code = 200 ∨ (switch_core dr t hF swF).env.code = 500 := by
  unfold switch_core switchFail
  try dsimp only
  repeat' split
  all_goals first | exact Or.inl rfl | exact Or.inr rfl

theorem codes_switchTab (d : Option Driver) (t : Py) (hF swF : Option EngFault) :
    (switch_to_specific_tab d t hF swF).env.code = 200
    ∨ (switch_to_specific_tab d t hF swF).env.code = 500 := by
  unfold switch_to_specific_tab
  cases d with
  | none => exact Or.inr rfl
  | some dr => exact codes_switch_core dr t hF swF

theorem codes_openUrl (d : Option Driver) (u t : Py) (hF swF navF : Option EngFault) :
    (open_url_in_specific_tab d u t hF swF navF).env.code = 200
    ∨ (open_url_in_specific_tab d u t hF swF navF).env.code = 500 := by
  unfold open_url_in_specific_tab openUrlFail
  try dsimp only
  repeat' split
  all_goals first | exact Or.inl rfl | exact Or.inr rfl

theorem codes_tabContent (d : Option Driver) (t : Py) (chF hF swF psF : Option EngFault) :
    (get_specific_tab_page_content d t chF hF swF psF).env.code = 200
    ∨ (get_specific_tab_page_content d t chF hF swF psF).env.code = 500 := by
  unfold get_specific_tab_page_content contentFail
  try dsimp only
  repeat' split
  all_goals first | exact Or.inl rfl | exact Or.inr rfl

theorem codes_scrollDown (d : Option Driver) (dist : Int) (t : Py)
    (hF swF exF : Option EngFault) :
    (scroll_mouse_wheel_down d dist t hF swF exF).env.code = 200
    ∨ (scroll_mouse_wheel_down d dist t hF swF exF).env.code = 500 := by
  unfold scroll_mouse_wheel_down scrollDownFail
  try dsimp only
  repeat' split
  all_goals first | exact Or.inl rfl | exact Or.inr rfl

theorem codes_scrollUp (d : Option Driver) (dist : Int) (t : Py)
    (hF swF exF : Option EngFault) :
    (scroll_mouse_wheel_up d dist t hF swF exF).env.code = 200
    ∨ (scroll_mouse_wheel_up d dist t hF swF exF).env.code = 500 := by
  unfold scroll_mouse_wheel_up scrollUpFail
  try dsimp only
  repeat' split
  all_goals first | exact Or.inl rfl | exact Or.inr rfl

theorem codes_closeTab (d : Option Driver) (t : Py)
    (hF chF swF closeF hF2 swF2 : Option EngFault) :
    (close_specific_tab d t hF chF swF closeF hF2 swF2).env.code = 200
    ∨ (close_specific_tab d t hF chF swF closeF hF2 swF2).env.code = 500 := by
  unfold close_specific_tab closeHandler
  try dsimp only
  repeat' split
  all_goals first | exact Or.inl rfl | exact Or.inr rfl

theorem codes_quit (d : Option Driver) (qF : Option EngFault) :
    (quit_browser d qF).env.code = 200 ∨ (quit_browser d qF).env.code = 500 := by
  unfold quit_browser
  try dsimp only
  repeat' split
  all_goals first | exact Or.inl rfl | exact Or.inr rfl

theorem codes_clickXpath (d : Option Driver) (x t : Py) (hF swF fF cF : Option EngFault) :
    (click_element_by_xpath d x t hF swF fF cF).env.code = 200
    ∨ (click_element_by_xpath d x t hF swF fF cF).env.code = 404
    ∨ (click_element_by_xpath d x t hF swF fF cF).env.code = 500 := by
  unfold click_element_by_xpath click_xpath_act clickXpathFail
  try dsimp only
  repeat' split
  all_goals first
    | exact Or.inl rfl
    | exact Or.inr (Or.inl rfl)
    | exact Or.inr (Or.inr rfl)

theorem codes_clickBy (d : Option Driver) (l : Py) (lt : String) (t : Py)
    (hF swF fF sF cF : Option EngFault) :
    (click_element d l lt t hF swF fF sF cF).env.code = 200
    ∨ (click_element d l lt t hF swF fF sF cF).env.code = 404
    ∨ (click_element d l lt t hF swF fF sF cF).env.code = 500 := by
  unfold click_element click_elem_act clickElemFail
  try dsimp only
  repeat' split
  all_goals first
    | exact Or.inl rfl
    | exact Or.inr (Or.inl rfl)
    | exact Or.inr (Or.inr rfl)

theorem run_codes (op : Op) (d : Option Driver) :
    (op.run d).env.code = 200 ∨ (op.run d).env.code = 404 ∨ (op.run d).env.code = 500 := by
  cases op with
  | createTab nh exF => exact (codes_create d nh exF).imp id Or.inr
  | listTabs hF => exact (codes_listTabs d hF).imp id Or.inr
  | activeTab chF hF => exact (codes_activeTab d chF hF).imp id Or.inr
  | switchTab t hF swF => exact (codes_switchTab d t hF swF).imp id Or.inr
  | openUrl u t hF swF navF => exact (codes_openUrl d u t hF swF navF).imp id Or.inr
  | tabContent t chF hF swF psF =>
      exact (codes_tabContent d t chF hF swF psF).imp id Or.inr
  | scrollDown dist t hF swF exF =>
      exact (codes_scrollDown d dist t hF swF exF).imp id Or.inr
  | scrollUp dist t hF swF exF =>
      exact (codes_scrollUp d dist t hF swF exF).imp id Or.inr
  | clickXpath x t hF swF fF cF => exact codes_clickXpath d x t hF swF fF cF
  | clickBy l lt t hF swF fF sF cF => exact codes_clickBy d l lt t hF swF fF sF cF
  | closeTab t hF chF swF closeF hF2 swF2 =>
      exact (codes_closeTab d t hF chF swF closeF hF2 swF2).imp id Or.inr
  | quitOp qF => exact (codes_quit d qF).imp id Or.inr

theorem click_xpath_act_404 (dr : Driver) (x t : Py) (sw : Bool) (tr : List ECall)
    (fF cF : Option EngFault)
    (hc : (click_xpath_act dr x t sw tr fF cF).env.code = 404) :
    (ByQ.byXpath, pyAsStr x) ∉ dr.elems := by
  by_cases hm : (ByQ.byXpath, pyAsStr x) ∈ dr.elems
  · exfalso
    cases fF with
    | some e =>
      cases e <;>
        simp [click_xpath_act, clickXpathFail, fail500, EngFault.toExc] at hc
    | none =>
      cases cF with
      | some e =>
        cases e <;>
          simp [click_xpath_act, clickXpathFail, fail500, EngFault.toExc, hm] at hc
      | none => simp [click_xpath_act, ok200, hm] at hc
  · exact hm

theorem click_elem_act_404 (dr : Driver) (l : Py) (lt : String) (b : ByQ) (t : Py)
    (sw : Bool) (tr : List ECall) (fF sF cF : Option EngFault)
    (hc : (click_elem_act dr l lt b t sw tr fF sF cF).env.code = 404) :
    (b, pyAsStr l) ∉ dr.elems := by
  by_cases hm : (b, pyAsStr l) ∈ dr.elems
  · exfalso
    cases fF with
    | some e =>
      cases e <;>
        simp [click_elem_act, clickElemFail, fail500, EngFault.toExc] at hc
    | none =>
      cases sF with
      | some e =>
        cases e <;>
          simp [click_elem_act, clickElemFail, fail500, EngFault.toExc, hm] at hc
      | none =>
        cases cF with
        | some e =>
          cases e <;>
            simp [click_elem_act, clickElemFail, fail500, EngFault.toExc, hm] at hc
        | none => simp [click_elem_act, ok200, hm] at hc
  · exact hm

theorem click_xpath_404 (d : Option Driver) (x t : Py) (hF swF fF cF : Option EngFault)
    (hc : (click_element_by_xpath d x t hF swF fF cF).env.code = 404) :
    clickNotFound (Op.clickXpath x t hF swF fF cF) d := by
  cases d with
  | none => simp [click_element_by_xpath, clickXpathFail, fail500] at hc
  | some dr =>
    obtain ⟨s, rfl, hsne⟩ : ∃ s, x = Py.str s ∧ s ≠ "" := by
      cases x with
      | str s =>
        refine ⟨s, rfl, ?_⟩
        intro hnil
        subst hnil
        simp [click_element_by_xpath, pyFalsy, clickXpathFail, fail500] at hc
      | none => simp [click_element_by_xpath, pyFalsy, clickXpathFail, fail500] at hc
      | bool b =>
        cases b <;>
          simp [click_element_by_xpath, pyFalsy, pyIsStr, clickXpathFail, fail500] at hc
      | int i =>
        by_cases hz : i = 0
        · subst hz
          simp [click_element_by_xpath, pyFalsy, pyIsStr, clickXpathFail, fail500] at hc
        · simp [click_element_by_xpath, pyFalsy, pyIsStr, hz, clickXpathFail, fail500] at hc
      | floatV n =>
        by_cases hz : n = 0
        · subst hz
          simp [click_element_by_xpath, pyFalsy, pyIsStr, clickXpathFail, fail500] at hc
        · simp [click_element_by_xpath, pyFalsy, pyIsStr, hz, clickXpathFail, fail500] at hc
    have hcond : (pyFalsy (Py.str s) || !pyIsStr (Py.str s)) = false := by
      simp [pyFalsy, pyIsStr, hsne]
    cases t with
    | none =>
      refine ⟨s, rfl, hsne, ?_⟩
      have := click_xpath_act_404 dr (Py.str s) Py.none false [] fF cF (by
        simpa [click_element_by_xpath, hcond] using hc)
      simpa [pyAsStr] using this
    | int j =>
      by_cases hsw : (switch_core dr (Py.int j) hF swF).env.code = 200
      · refine ⟨s, rfl, hsne, ?_⟩
        have := click_xpath_act_404 (switch_core dr (Py.int j) hF swF).driver (Py.str s)
          (Py.int j) true (switch_core dr (Py.int j) hF swF).calls fF cF (by
            simpa [click_element_by_xpath, hcond, hsw] using hc)
        rw [switch_core_elems] at this
        simpa [pyAsStr] using this
      · simp [click_element_by_xpath, hcond, hsw, clickXpathFail, fail500] at hc
    | bool c =>
      by_cases hsw : (switch_core dr (Py.bool c) hF swF).env.code = 200
      · refine ⟨s, rfl, hsne, ?_⟩
        have := click_xpath_act_404 (switch_core dr (Py.bool c) hF swF).driver (Py.str s)
          (Py.bool c) true (switch_core dr (Py.bool c) hF swF).calls fF cF (by
            simpa [click_element_by_xpath, hcond, hsw] using hc)
        rw [switch_core_elems] at this
        simpa [pyAsStr] using this
      · simp [click_element_by_xpath, hcond, hsw, clickXpathFail, fail500] at hc
    | str u =>
      by_cases hsw : (switch_core dr (Py.str u) hF swF).env.code = 200
      · refine ⟨s, rfl, hsne, ?_⟩
        have := click_xpath_act_404 (switch_core dr (Py.str u) hF swF).driver (Py.str s)
          (Py.str u) true (switch_core dr (Py.str u) hF swF).calls fF cF (by
            simpa [click_element_by_xpath, hcond, hsw] using hc)
        rw [switch_core_elems] at this
        simpa [pyAsStr] using this
      · simp [click_element_by_xpath, hcond, hsw, clickXpathFail, fail500] at hc
    | floatV m =>
      by_cases hsw : (switch_core dr (Py.floatV m) hF swF).env.code = 200
      · refine ⟨s, rfl, hsne, ?_⟩
        have := click_xpath_act_404 (switch_core dr (Py.floatV m) hF swF).driver (Py.str s)
          (Py.floatV m) true (switch_core dr (Py.floatV m) hF swF).calls fF cF (by
            simpa [click_element_by_xpath, hcond, hsw] using hc)
        rw [switch_core_elems] at this
        simpa [pyAsStr] using this
      · simp [click_element_by_xpath, hcond, hsw, clickXpathFail, fail500] at hc

theorem click_elem_404 (d : Option Driver) (l : Py) (lt : String) (t : Py)
    (hF swF fF sF cF : Option EngFault)
    (hc : (click_element d l lt t hF swF fF sF cF).env.code = 404) :
    clickNotFound (Op.clickBy l lt t hF swF fF sF cF) d := by
  cases d with
  | none => simp [click_element, clickElemFail, fail500] at hc
  | some dr =>
    match hb : byOf lt with
    | Option.none => simp [click_element, hb, clickElemFail, fail500] at hc
    | Option.some b =>
      obtain ⟨s, rfl, hsne⟩ : ∃ s, l = Py.str s ∧ s ≠ "" := by
        cases l with
        | str s =>
          refine ⟨s, rfl, ?_⟩
          intro hnil
          subst hnil
          simp [click_element, hb, pyFalsy, clickElemFail, fail500] at hc
        | none => simp [click_element, hb, pyFalsy, clickElemFail, fail500] at hc
        | bool c =>
          cases c <;>
            simp [click_element, hb, pyFalsy, pyIsStr, clickElemFail, fail500] at hc
        | int i =>
          by_cases hz : i = 0
          · subst hz
            simp [click_element, hb, pyFalsy, pyIsStr, clickElemFail, fail500] at hc
          · simp [click_element, hb, pyFalsy, pyIsStr, hz, clickElemFail, fail500] at hc
        | floatV n =>
          by_cases hz : n = 0
          · subst hz
            simp [click_element, hb, pyFalsy, pyIsStr, clickElemFail, fail500] at hc
          · simp [click_element, hb, pyFalsy, pyIsStr, hz, clickElemFail, fail500] at hc
      have hcond : (pyFalsy (Py.str s) || !pyIsStr (Py.str s)) = false := by
        simp [pyFalsy, pyIsStr, hsne]
      cases t with
      | none =>
        refine ⟨s, b, rfl, hsne, hb, ?_⟩
        have := click_elem_act_404 dr (Py.str s) lt b Py.none false [] fF sF cF (by
          simpa [click_element, hb, hcond] using hc)
        simpa [pyAsStr] using this
      | int j =>
        by_cases hsw : (switch_core dr (Py.int j) hF swF).env.code = 200
        · refine ⟨s, b, rfl, hsne, hb, ?_⟩
          have := click_elem_act_404 (switch_core dr (Py.int j) hF swF).driver (Py.str s)
            lt b (Py.int j) true (switch_core dr (Py.int j) hF swF).calls fF sF cF (by
              simpa [click_element, hb, hcond, hsw] using hc)
          rw [switch_core_elems] at this
          simpa [pyAsStr] using this
        · simp [click_element, hb, hcond, hsw, clickElemFail, fail500] at hc
      | bool c =>
        by_cases hsw : (switch_core dr (Py.bool c) hF swF).env.code = 200
        · refine ⟨s, b, rfl, hsne, hb, ?_⟩
          have := click_elem_act_404 (switch_core dr (Py.bool c) hF swF).driver (Py.str s)
            lt b (Py.bool c) true (switch_core dr (Py.bool c) hF swF).calls fF sF cF (by
              simpa [click_element, hb, hcond, hsw] using hc)
          rw [switch_core_elems] at this
          simpa [pyAsStr] using this
        · simp [click_element, hb, hcond, hsw, clickElemFail, fail500] at hc
      | str u =>
        by_cases hsw : (switch_core dr (Py.str u) hF swF).env.code = 200
        · refine ⟨s, b, rfl, hsne, hb, ?_⟩
          have := click_elem_act_404 (switch_core dr (Py.str u) hF swF).driver (Py.str s)
            lt b (Py.str u) true (switch_core dr (Py.str u) hF swF).calls fF sF cF (by
              simpa [click_element, hb, hcond, hsw] using hc)
          rw [switch_core_elems] at this
          simpa [pyAsStr] using this
        · simp [click_element, hb, hcond, hsw, clickElemFail, fail500] at hc
      | floatV m =>
        by_cases hsw : (switch_core dr (Py.floatV m) hF swF).env.code = 200
        · refine ⟨s, b, rfl, hsne, hb, ?_⟩
          have := click_elem_act_404 (switch_core dr (Py.floatV m) hF swF).driver (Py.str s)
            lt b (Py.floatV m) true (switch_core dr (Py.floatV m) hF swF).calls fF sF cF (by
              simpa [click_element, hb, hcond, hsw] using hc)
          rw [switch_core_elems] at this
          simpa [pyAsStr] using this
        · simp [click_element, hb, hcond, hsw, clickElemFail, fail500] at hc

/-- C7: a failure envelope carries code 404 if and only if a click-family
operation found zero elements matching its (validated) locator: every
failure of every operation carries 404 or 500; a 404 can only come from a
click-family operation whose element lookup matched nothing; and a click
with a non-empty locator that matches no element (no faults, absent target)
does produce 404. -/
theorem claim_C7_error_code_classification (op : Op) (d : Option Driver) :
    ((op.run d).env.status = "failed" →
      (op.run d).env.code = 404 ∨ (op.run d).env.code = 500)
    ∧ ((op.run d).env.code = 404 →
        Op.isClickFamily op = true ∧ clickNotFound op d)
    ∧ (∀ dr s, d = some dr → s ≠ "" → (ByQ.byXpath, s) ∉ dr.elems →
        (Op.run (Op.clickXpath (Py.str s) Py.none none none none none) d).env.code = 404) := by
  refine ⟨?_, ?_, ?_⟩
  · intro hf
    rcases run_codes op d with h200 | h
    · exfalso
      have hsu := (envInv_run op d).1.2 h200
      rw [hf] at hsu
      exact absurd hsu (by decide)
    · exact h
  · intro h404
    cases op with
    | createTab nh exF =>
      rcases codes_create d nh exF with h | h <;> rw [Op.run] at h404 <;> omega
    | listTabs hF =>
      rcases codes_listTabs d hF with h | h <;> rw [Op.run] at h404 <;> omega
    | activeTab chF hF =>
      rcases codes_activeTab d chF hF with h | h <;> rw [Op.run] at h404 <;> omega
    | switchTab t hF swF =>
      rcases codes_switchTab d t hF swF with h | h <;> rw [Op.run] at h404 <;> omega
    | openUrl u t hF swF navF =>
      rcases codes_openUrl d u t hF swF navF with h | h <;> rw [Op.run] at h404 <;> omega
    | tabContent t chF hF swF psF =>
      rcases codes_tabContent d t chF hF swF psF with h | h <;>
        rw [Op.run] at h404 <;> omega
    | scrollDown dist t hF swF exF =>
      rcases codes_scrollDown d dist t hF swF exF with h | h <;>
        rw [Op.run] at h404 <;> omega
    | scrollUp dist t hF swF exF =>
      rcases codes_scrollUp d dist t hF swF exF with h | h <;>
        rw [Op.run] at h404 <;> omega
    | closeTab t hF chF swF closeF hF2 swF2 =>
      rcases codes_closeTab d t hF chF swF closeF hF2 swF2 with h | h <;>
        rw [Op.run] at h404 <;> omega
    | quitOp qF =>
      rcases codes_quit d qF with h | h <;> rw [Op.run] at h404 <;> omega
    | clickXpath x t hF swF fF cF =>
      exact ⟨rfl, click_xpath_404 d x t hF swF fF cF h404⟩
    | clickBy l lt t hF swF fF sF cF =>
      exact ⟨rfl, click_elem_404 d l lt t hF swF fF sF cF h404⟩
  · intro dr s hd hs hne
    subst hd
    have hcond : (pyFalsy (Py.str s) || !pyIsStr (Py.str s)) = false := by
      simp [pyFalsy, pyIsStr, hs]
    simp [Op.run, click_element_by_xpath, hcond, click_xpath_act, pyAsStr, hne,
      clickXpathFail, fail404]

theorem detail_create (d : Option Driver) (nh : String) (exF : Option EngFault) :
    (create_new_tab d nh exF).env.status = "failed" →
    (create_new_tab d nh exF).env.detail = PyVal.none := by
  unfold create_new_tab
  try dsimp only
  repeat' split
  all_goals intro hfail
  all_goals first
    | rfl
    | simp [ok200] at hfail

theorem detail_listTabs (d : Option Driver) (hF : Option EngFault) :
    (get_all_tabs d hF).env.status = "failed" →
    (get_all_tabs d hF).env.detail = PyVal.none := by
  unfold get_all_tabs
  try dsimp only
  repeat' split
  all_goals intro hfail
  all_goals first
    | rfl
    | simp [ok200] at hfail

theorem detail_activeTab (d : Option Driver) (chF hF : Option EngFault) :
    (get_active_tab d chF hF).env.status = "failed" →
    (get_active_tab d chF hF).env.detail = PyVal.none := by
  unfold get_active_tab activeFail
  try dsimp only
  repeat' split
  all_goals intro hfail
  all_goals first
    | rfl
    | simp [ok200] at hfail

theorem detail_quit (d : Option Driver) (qF : Option EngFault) :
    (quit_browser d qF).env.status = "failed" →
    (quit_browser d qF).env.detail = PyVal.none := by
  unfold quit_browser
  try dsimp only
  repeat' split
  all_goals intro hfail
  all_goals first
    | rfl
    | simp [ok200] at hfail

theorem detail_switch (d : Option Driver) (t : Py) (hF swF : Option EngFault) :
    (switch_to_specific_tab d t hF swF).env.status = "failed" →
    (switch_to_specific_tab d t hF swF).env.detail
      = PyVal.dict [("input_target", pyToVal t)] := by
  unfold switch_to_specific_tab switch_core switchFail
  try dsimp only
  repeat' split
  all_goals intro hfail
  all_goals first
    | rfl
    | simp [ok200] at hfail

theorem detail_openUrl (d : Option Driver) (u t : Py) (hF swF navF : Option EngFault) :
    (open_url_in_specific_tab d u t hF swF navF).env.status = "failed" →
    (open_url_in_specific_tab d u t hF swF navF).env.detail
      = PyVal.dict [("target_tab", pyToVal t), ("input_url", pyToVal u)] := by
  unfold open_url_in_specific_tab openUrlFail
  try dsimp only
  repeat' split
  all_goals intro hfail
  all_goals first
    | rfl
    | simp [ok200] at hfail

theorem detail_tabContent (d : Option Driver) (t : Py) (chF hF swF psF : Option EngFault) :
    (get_specific_tab_page_content d t chF hF swF psF).env.status = "failed" →
    (get_specific_tab_page_content d t chF hF swF psF).env.detail
      = PyVal.dict [("input_target", pyToVal t)] := by
  unfold get_specific_tab_page_content contentFail
  try dsimp only
  repeat' split
  all_goals intro hfail
  all_goals first
    | rfl
    | simp [ok200] at hfail

theorem detail_scrollDown (d : Option Driver) (dist : Int) (t : Py)
    (hF swF exF : Option EngFault) :
    (scroll_mouse_wheel_down d dist t hF swF exF).env.status = "failed" →
    (scroll_mouse_wheel_down d dist t hF swF exF).env.detail
      = PyVal.dict [("scroll_distance", PyVal.int dist), ("target_tab", pyToVal t)] := by
  unfold scroll_mouse_wheel_down scrollDownFail
  try dsimp only
  repeat' split
  all_goals intro hfail
  all_goals first
    | rfl
    | simp [ok200] at hfail

theorem detail_scrollUp (d : Option Driver) (dist : Int) (t : Py)
    (hF swF exF : Option EngFault) :
    (scroll_mouse_wheel_up d dist t hF swF exF).env.status = "failed" →
    (scroll_mouse_wheel_up d dist t hF swF exF).env.detail
      = PyVal.dict [("scroll_distance", PyVal.int dist), ("target_tab", pyToVal t)] := by
  unfold scroll_mouse_wheel_up scrollUpFail
  try dsimp only
  repeat' split
  all_goals intro hfail
  all_goals first
    | rfl
    | simp [ok200] at hfail

theorem detail_clickXpathFail (x t : Py) (e : Exc) :
    detailHas (clickXpathFail x t e).detail ("xpath_expression", pyToVal x)
    ∧ detailHas (clickXpathFail x t e).detail ("target_tab", pyToVal t) := by
  unfold clickXpathFail
  repeat' split
  all_goals simp [detailHas, fail404, fail500]

theorem detail_clickXpath (d : Option Driver) (x t : Py) (hF swF fF cF : Option EngFault) :
    (click_element_by_xpath d x t hF swF fF cF).env.status = "failed" →
    detailHas (click_element_by_xpath d x t hF swF fF cF).env.detail
      ("xpath_expression", pyToVal x)
    ∧ detailHas (click_element_by_xpath d x t hF swF fF cF).env.detail
      ("target_tab", pyToVal t) := by
  unfold click_element_by_xpath click_xpath_act
  try dsimp only
  repeat' split
  all_goals intro hfail
  all_goals first
    | exact detail_clickXpathFail _ _ _
    | simp [ok200] at hfail

theorem detail_clickElemFail (l : Py) (lt : String) (t : Py) (e : Exc) :
    detailHas (clickElemFail l lt t e).detail ("locator_type", PyVal.str lt)
    ∧ detailHas (clickElemFail l lt t e).detail ("locator_expression", pyToVal l)
    ∧ detailHas (clickElemFail l lt t e).detail ("target_tab", pyToVal t) := by
  unfold clickElemFail
  repeat' split
  all_goals simp [detailHas, fail404, fail500]

theorem detail_clickBy (d : Option Driver) (l : Py) (lt : String) (t : Py)
    (hF swF fF sF cF : Option EngFault) :
    (click_element d l lt t hF swF fF sF cF).env.status = "failed" →
    detailHas (click_element d l lt t hF swF fF sF cF).env.detail
      ("locator_type", PyVal.str lt)
    ∧ detailHas (click_element d l lt t hF swF fF sF cF).env.detail
      ("locator_expression", pyToVal l)
    ∧ detailHas (click_element d l lt t hF swF fF sF cF).env.detail
      ("target_tab", pyToVal t) := by
  unfold click_element click_elem_act
  try dsimp only
  repeat' split
  all_goals intro hfail
  all_goals first
    | exact detail_clickElemFail _ _ _ _
    | simp [ok200] at hfail

theorem detail_closeHandler (dr : Driver) (t : Py) (e : Exc) (tr : List ECall) :
    detailHas (closeHandler dr t e tr).env.detail ("input_target", pyToVal t) := by
  unfold closeHandler
  repeat' split
  all_goals simp [detailHas, fail500]

theorem detail_closeTab (d : Option Driver) (t : Py)
    (hF chF swF closeF hF2 swF2 : Option EngFault) :
    (close_specific_tab d t hF chF swF closeF hF2 swF2).env.status = "failed" →
    detailHas (close_specific_tab d t hF chF swF closeF hF2 swF2).env.detail
      ("input_target", pyToVal t) := by
  unfold close_specific_tab
  try dsimp only
  repeat' split
  all_goals intro hfail
  all_goals first
    | exact detail_closeHandler _ _ _ _
    | (simp [detailHas, fail500]; done)
    | (simp [ok200] at hfail; done)

/-- C8 counterexample: `create_new_tab` on an uninitialized session returns
a failure envelope whose detail field is null, refuting "detail is never
null on failure". -/
theorem claim_C8_counterexample_null_detail :
    (create_new_tab none "h" none).env.status = "failed"
    ∧ (create_new_tab none "h" none).env.code = 500
    ∧ (create_new_tab none "h" none).env.detail = PyVal.none :=
  ⟨rfl, rfl, rfl⟩

/-- C8 (amended): for every operation that takes input parameters, every
failure envelope's detail carries the caller's original inputs (named
key-value pairs); the parameterless operations — create_new_tab,
get_all_tabs, get_active_tab and quit_browser — return a null detail on
failure. -/
theorem claim_C8_failure_detail_inputs (op : Op) (d : Option Driver)
    (hfail : (op.run d).env.status = "failed") :
    (∀ kv ∈ inputDetail op, detailHas (op.run d).env.detail kv)
    ∧ (inputDetail op = [] → (op.run d).env.detail = PyVal.none) := by
  cases op with
  | createTab nh exF =>
    refine ⟨?_, fun _ => detail_create d nh exF hfail⟩
    intro kv hkv
    simp [inputDetail] at hkv
  | listTabs hF =>
    refine ⟨?_, fun _ => detail_listTabs d hF hfail⟩
    intro kv hkv
    simp [inputDetail] at hkv
  | activeTab chF hF =>
    refine ⟨?_, fun _ => detail_activeTab d chF hF hfail⟩
    intro kv hkv
    simp [inputDetail] at hkv
  | quitOp qF =>
    refine ⟨?_, fun _ => detail_quit d qF hfail⟩
    intro kv hkv
    simp [inputDetail] at hkv
  | switchTab t hF swF =>
    refine ⟨?_, by intro hempty; simp [inputDetail] at hempty⟩
    intro kv hkv
    simp only [inputDetail, List.mem_singleton] at hkv
    subst hkv
    show detailHas (switch_to_specific_tab d t hF swF).env.detail _
    rw [detail_switch d t hF swF hfail]
    simp [detailHas]
  | openUrl u t hF swF navF =>
    refine ⟨?_, by intro hempty; simp [inputDetail] at hempty⟩
    intro kv hkv
    simp only [inputDetail, List.mem_cons, List.mem_singleton] at hkv
    show detailHas (open_url_in_specific_tab d u t hF swF navF).env.detail _
    rw [detail_openUrl d u t hF swF navF hfail]
    rcases hkv with h | h
    · subst h; simp [detailHas]
    · rcases h with h | h
      · subst h; simp [detailHas]
      · simp at h
  | tabContent t chF hF swF psF =>
    refine ⟨?_, by intro hempty; simp [inputDetail] at hempty⟩
    intro kv hkv
    simp only [inputDetail, List.mem_singleton] at hkv
    subst hkv
    show detailHas (get_specific_tab_page_content d t chF hF swF psF).env.detail _
    rw [detail_tabContent d t chF hF swF psF hfail]
    simp [detailHas]
  | scrollDown dist t hF swF exF =>
    refine ⟨?_, by intro hempty; simp [inputDetail] at hempty⟩
    intro kv hkv
    simp only [inputDetail, List.mem_cons, List.mem_singleton] at hkv
    show detailHas (scroll_mouse_wheel_down d dist t hF swF exF).env.detail _
    rw [detail_scrollDown d dist t hF swF exF hfail]
    rcases hkv with h | h
    · subst h; simp [detailHas]
    · rcases h with h | h
      · subst h; simp [detailHas]
      · simp at h
  | scrollUp dist t hF swF exF =>
    refine ⟨?_, by intro hempty; simp [inputDetail] at hempty⟩
    intro kv hkv
    simp only [inputDetail, List.mem_cons, List.mem_singleton] at hkv
    show detailHas (scroll_mouse_wheel_up d dist t hF swF exF).env.detail _
    rw [detail_scrollUp d dist t hF swF exF hfail]
    rcases hkv with h | h
    · subst h; simp [detailHas]
    · rcases h with h | h
      · subst h; simp [detailHas]
      · simp at h
  | clickXpath x t hF swF fF cF =>
    refine ⟨?_, by intro hempty; simp [inputDetail] at hempty⟩
    intro kv hkv
    simp only [inputDetail, List.mem_cons, List.mem_singleton] at hkv
    rcases hkv with h | h
    · subst h; exact (detail_clickXpath d x t hF swF fF cF hfail).1
    · rcases h with h | h
      · subst h; exact (detail_clickXpath d x t hF swF fF cF hfail).2
      · simp at h
  | clickBy l lt t hF swF fF sF cF =>
    refine ⟨?_, by intro hempty; simp [inputDetail] at hempty⟩
    intro kv hkv
    simp only [inputDetail, List.mem_cons, List.mem_singleton] at hkv
    rcases hkv with h | h
    · subst h; exact (detail_clickBy d l lt t hF swF fF sF cF hfail).1
    · rcases h with h | h
      · subst h; exact (detail_clickBy d l lt t hF swF fF sF cF hfail).2.1
      · rcases h with h | h
        · subst h; exact (detail_clickBy d l lt t hF swF fF sF cF hfail).2.2
        · simp at h
  | closeTab t hF chF swF closeF hF2 swF2 =>
    refine ⟨?_, by intro hempty; simp [inputDetail] at hempty⟩
    intro kv hkv
    simp only [inputDetail, List.mem_singleton] at hkv
    subst hkv
    exact detail_closeTab d t hF chF swF closeF hF2 swF2 hfail

theorem claim_C8_failure_detail_inputs_witness :
    detailHas ((Op.switchTab (Py.int 5) none none).run (some demoDriver)).env.detail
      ("input_target", PyVal.int 5) :=
  (claim_C8_failure_detail_inputs (Op.switchTab (Py.int 5) none none) (some demoDriver)
    (by rfl)).1 ("input_target", PyVal.int 5) (by simp [inputDetail, pyToVal])
